import Mathlib

/-!
# Verification of the bus passenger tracking core (SanjeevanTech/backendPython)

Shallow embedding, in Lean 4, of the core algorithms of
`simplified_bus_server.py` and `route_detector.py`:

* the fare calculator (`calculate_fare`),
* the Haversine wrappers (`calculate_haversine_distance`,
  `RouteDetector.calculate_distance`),
* the stop/segment matching of `RouteDetector._check_location_proximity`,
* the season-ticket validation (`is_route_valid_for_season_ticket`,
  `check_season_ticket_member`),
* the trip ledger (`start_new_trip`, `end_current_trip`,
  `find_matching_entry`, `store_unmatched_exit`).

Modelling conventions:

* Python floats are modelled as `ℚ`.  A value that may be non-numeric
  (a malformed string, `None`, ...) is modelled by `PyVal`; Python's
  `float(x)` raising on such a value corresponds to the `.nonNum` case.
* The numeric core of the Haversine formula (`math.sin`/`cos`/`asin` on
  floats) is kept abstract as a function argument `core : ℚ → ℚ → ℚ → ℚ → ℚ`;
  every property proved here is about the surrounding control flow, which
  is independent of the trigonometry.
* MongoDB collections are modelled as Lean lists; a query that can raise
  is modelled with `Except Unit`.
* External collaborators of the ledger (cosine similarity on embeddings,
  road-distance provider, reverse geocoder, the route detector's DB-backed
  matcher) are inputs, collected in an `Env` record.
-/

/-- A Python value used where the code expects a float: either an actual
number or something non-numeric on which `float(...)` raises. -/
inductive PyVal where
  | num (q : ℚ)
  | nonNum
deriving Repr, DecidableEq

/-- Returns `true` iff all four inputs convert to floats without raising. -/
def allNumeric : PyVal → PyVal → PyVal → PyVal → Bool
  | .num _, .num _, .num _, .num _ => true
  | _, _, _, _ => false

/-- Result of `RouteDetector.calculate_distance`: a distance, or the
`float('inf')` sentinel produced by its `except` branch. -/
inductive RDDist where
  | val (q : ℚ)
  | inf
deriving Repr, DecidableEq

/-- Embedding of `RouteDetector.calculate_distance` (route_detector.py:27-43): converts
the four coordinates with `float(...)` and runs the Haversine formula
(abstracted as `core`); any exception is caught and `float('inf')` is
returned. -/
def rd_calculate_distance (core : ℚ → ℚ → ℚ → ℚ → ℚ) :
    PyVal → PyVal → PyVal → PyVal → RDDist
  | .num a, .num b, .num c, .num d => .val (core a b c d)
  | _, _, _, _ => .inf

/-- Embedding of `SimplifiedBusTracker.calculate_haversine_distance`
(simplified_bus_server.py:445-463): same conversion and formula, but the
`except` branch returns `0.0` to the caller. -/
def calculate_haversine_distance (core : ℚ → ℚ → ℚ → ℚ → ℚ) :
    PyVal → PyVal → PyVal → PyVal → ℚ
  | .num a, .num b, .num c, .num d => core a b c d
  | _, _, _, _ => 0

/-! ## Fare calculator (`calculate_fare`, simplified_bus_server.py:645-696) -/

/-- One document of the `fareStages` collection. -/
structure FareStage where
  stage_number : ℤ
  fare : ℚ
  is_active : Bool
deriving Repr, DecidableEq

/-- Models `find_one({'stage_number': s, 'is_active': True})`: first document in
natural order matching both conditions. -/
def findExactStage (tbl : List FareStage) (s : ℤ) : Option FareStage :=
  tbl.find? (fun f => f.is_active && f.stage_number == s)

/-- Fold selecting the document with the smallest `stage_number`
(first one wins ties), as `find_one(..., sort=[('stage_number', 1)])`. -/
def minByStage (l : List FareStage) : Option FareStage :=
  l.foldl (fun acc f =>
    match acc with
    | none => some f
    | some g => if f.stage_number < g.stage_number then some f else some g) none

/-- Fold selecting the document with the largest `stage_number`
(first one wins ties), as `find_one(..., sort=[('stage_number', -1)])`. -/
def maxByStage (l : List FareStage) : Option FareStage :=
  l.foldl (fun acc f =>
    match acc with
    | none => some f
    | some g => if g.stage_number < f.stage_number then some f else some g) none

/-- Models `find_one({'stage_number': {'$gte': s}, 'is_active': True},
sort=[('stage_number', 1)])`. -/
def findGEStage (tbl : List FareStage) (s : ℤ) : Option FareStage :=
  minByStage (tbl.filter (fun f => f.is_active && decide (s ≤ f.stage_number)))

/-- Models `find_one({'is_active': True}, sort=[('stage_number', -1)])`. -/
def findHighestStage (tbl : List FareStage) : Option FareStage :=
  maxByStage (tbl.filter (fun f => f.is_active))

/-- The lookup cascade of `calculate_fare` for a given stage number:
exact stage, else smallest active stage `≥`, else highest active stage,
else the hard-coded fallback `30` / `30 + (stage-1)*10`. -/
def lookupFare (tbl : List FareStage) (stage : ℤ) : ℚ :=
  match findExactStage tbl stage with
  | some f => f.fare
  | none =>
    match findGEStage tbl stage with
    | some f => f.fare
    | none =>
      match findHighestStage tbl with
      | some f => f.fare
      | none => if stage == 1 then 30 else 30 + (stage - 1) * 10

/-- The constant `STAGE_DISTANCE = 3.5` (km per fare stage). -/
def STAGE_DISTANCE : ℚ := 7/2

/-- Computes `math.ceil(distance_km / STAGE_DISTANCE)`. -/
def stageOf (d : ℚ) : ℤ := ⌈d / STAGE_DISTANCE⌉

/-- Embedding of `calculate_fare(distance_km)` (simplified_bus_server.py:645-696).
`db` is the `fareStages` collection, `Except.error` modelling a database
access that raises (caught by the function's `except`, which returns
`0.0`).  A non-numeric `distance_km` makes `distance_km <= 0` raise, also
landing in the `except` branch. -/
def calculate_fare (db : Except Unit (List FareStage)) (distance_km : PyVal) : ℚ :=
  match distance_km with
  | .nonNum => 0
  | .num d =>
    if d ≤ 0 then 0
    else if d < 1/10 then 0
    else
      match db with
      | .error _ => 0
      | .ok tbl => lookupFare tbl (stageOf d)

/-! ## Route detector: stop/segment matching
(`RouteDetector._check_location_proximity`, route_detector.py:285-424) -/

/-- Python truthiness of `stop.get('latitude')` etc.: falsy when the key
is absent (`none`) or the value is `0.0`. -/
def truthyQ : Option ℚ → Bool
  | none => false
  | some q => q != 0

/-- One stop of a `busRoutes` document.  Fields are read with `.get`, so
coordinates may be absent and `stop_order` defaults to `0`. -/
structure BusStop where
  stop_name : String
  latitude : Option ℚ
  longitude : Option ℚ
  stop_order : Option ℤ
deriving Repr, DecidableEq

/-- One `busRoutes` document. -/
structure RouteWithStops where
  route_name : String
  is_active : Bool
  stops : List BusStop
deriving Repr, DecidableEq

/-- One element of a season-ticket member's `valid_routes`. -/
structure ValidRoute where
  from_location : String
  to_location : String
  route_patterns : List String
deriving Repr, DecidableEq

/-- ASCII lowercase of one character (Python's `str.lower()` restricted
to the ASCII names appearing in this system). -/
def lowerChar (c : Char) : Char :=
  if 65 <= c.toNat && c.toNat <= 90 then Char.ofNat (c.toNat + 32) else c

/-- Python's `s.lower()` (ASCII). -/
def pyLower (s : String) : String :=
  String.mk (s.data.map lowerChar)

/-- Tests whether `n` is an initial segment of `h` (character lists). -/
def chPre : List Char → List Char → Bool
  | [], _ => true
  | _ :: _, [] => false
  | a :: as, b :: bs => a == b && chPre as bs

/-- Helper for `strHas`: does `n` occur contiguously in the character list? -/
def strHasAux (n : List Char) : List Char → Bool
  | [] => n.isEmpty
  | b :: bs => chPre n (b :: bs) || strHasAux n bs

/-- Python's substring test `needle in hay`. -/
def strHas (needle hay : String) : Bool :=
  strHasAux needle.toList hay.toList

/-- The constant `PROXIMITY_THRESHOLD_KM = 10` (within 10 km counts as "at" a stop). -/
def PROXIMITY_THRESHOLD_KM : ℚ := 10

/-- The stop-scanning loop of `_check_location_proximity`
(route_detector.py:327-343): walks the route's stops in list order,
skipping stops with falsy coordinates, and latches the FIRST stop within
the 10 km radius of the entry point (resp. exit point) — `entry_stop` and
`exit_stop` are never replaced once set. -/
def findStopsAux (dist : ℚ → ℚ → ℚ → ℚ → ℚ) (e_lat e_lon x_lat x_lon : ℚ)
    (es xs : Option BusStop) : List BusStop → Option BusStop × Option BusStop
  | [] => (es, xs)
  | st :: rest =>
    if truthyQ st.latitude && truthyQ st.longitude then
      let sl := st.latitude.getD 0
      let so := st.longitude.getD 0
      let es' := if es.isNone && decide (dist e_lat e_lon sl so ≤ PROXIMITY_THRESHOLD_KM)
                 then some st else es
      let xs' := if xs.isNone && decide (dist x_lat x_lon sl so ≤ PROXIMITY_THRESHOLD_KM)
                 then some st else xs
      findStopsAux dist e_lat e_lon x_lat x_lon es' xs' rest
    else findStopsAux dist e_lat e_lon x_lat x_lon es xs rest

/-- Entry/exit stop detection over one route's stops. -/
def findStops (dist : ℚ → ℚ → ℚ → ℚ → ℚ) (e_lat e_lon x_lat x_lon : ℚ)
    (stops : List BusStop) : Option BusStop × Option BusStop :=
  findStopsAux dist e_lat e_lon x_lat x_lon none none stops

/-- The FIRST stop in list order (with truthy coordinates) lying within
the capture radius of a point — the characterisation of what the loop in
`findStops` actually latches, which need not be the nearest such stop. -/
def firstStopWithin (dist : ℚ → ℚ → ℚ → ℚ → ℚ) (lat lon : ℚ)
    (stops : List BusStop) : Option BusStop :=
  stops.find? (fun st =>
    truthyQ st.latitude && truthyQ st.longitude &&
    decide (dist lat lon (st.latitude.getD 0) (st.longitude.getD 0) ≤ PROXIMITY_THRESHOLD_KM))

/-- The `route_stops` match dict returned by `_check_location_proximity`. -/
structure StopsMatch where
  route_name : String
  entry_stop : String
  exit_stop : String
  entry_order : ℤ
  exit_order : ℤ
deriving Repr, DecidableEq

/-- Body of the `for route in routes_with_stops` loop for one route
(route_detector.py:318-370): detect entry/exit stops, require strictly
increasing `stop_order`, then match member `from/to` locations against
the stop names by lowercase substring containment. -/
def routeStopOnce (dist : ℚ → ℚ → ℚ → ℚ → ℚ) (e_lat e_lon x_lat x_lon : ℚ)
    (vrs : List ValidRoute) (r : RouteWithStops) : Option StopsMatch :=
  if r.stops.isEmpty then none
  else
    match findStops dist e_lat e_lon x_lat x_lon r.stops with
    | (some es, some xs) =>
      let eOrd := es.stop_order.getD 0
      let xOrd := xs.stop_order.getD 0
      if eOrd < xOrd then
        match vrs.find? (fun vr =>
            strHas (pyLower vr.from_location) (pyLower es.stop_name) &&
            strHas (pyLower vr.to_location) (pyLower xs.stop_name)) with
        | some _ => some ⟨r.route_name, es.stop_name, xs.stop_name, eOrd, xOrd⟩
        | none => none
      else none
    | _ => none

/-- The whole route-stops phase of `_check_location_proximity`: first
route producing a match wins. -/
def routeStopsPhase (dist : ℚ → ℚ → ℚ → ℚ → ℚ) (e_lat e_lon x_lat x_lon : ℚ)
    (vrs : List ValidRoute) : List RouteWithStops → Option StopsMatch
  | [] => none
  | r :: rest =>
    match routeStopOnce dist e_lat e_lon x_lat x_lon vrs r with
    | some m => some m
    | none => routeStopsPhase dist e_lat e_lon x_lat x_lon vrs rest

/-- The static `known_locations` table (route_detector.py:376-386). -/
def knownLocations : List (String × ℚ × ℚ) :=
  [("jaffna", 96615/10000, 800255/10000),
   ("kodikamam", 96833/10000, 800833/10000),
   ("chavakachcheri", 96667/10000, 801667/10000),
   ("kilinochchi", 93833/10000, 804000/10000),
   ("vavuniya", 87542/10000, 804982/10000),
   ("anuradhapura", 83114/10000, 804037/10000),
   ("kurunegala", 74863/10000, 803623/10000),
   ("colombo", 69271/10000, 798612/10000),
   ("kandy", 72906/10000, 806337/10000)]

/-- Models `known_locations.get(name)`. -/
def lookupKnown (name : String) : Option (ℚ × ℚ) :=
  (knownLocations.find? (fun kv => kv.1 == name)).map (·.2)

/-- The `location_proximity` match dict. -/
structure ProxMatch where
  from_location : String
  to_location : String
  entry_distance_km : ℚ
  exit_distance_km : ℚ
deriving Repr, DecidableEq

/-- Last-resort phase of `_check_location_proximity`
(route_detector.py:390-419): both points within 10 km of the member's
registered from/to coordinates from the static table. -/
def proximityFallback (dist : ℚ → ℚ → ℚ → ℚ → ℚ) (e_lat e_lon x_lat x_lon : ℚ) :
    List ValidRoute → Option ProxMatch
  | [] => none
  | vr :: rest =>
    match lookupKnown (pyLower vr.from_location), lookupKnown (pyLower vr.to_location) with
    | some fc, some tc =>
      let entry_distance := dist e_lat e_lon fc.1 fc.2
      let exit_distance := dist x_lat x_lon tc.1 tc.2
      if entry_distance ≤ PROXIMITY_THRESHOLD_KM ∧ exit_distance ≤ PROXIMITY_THRESHOLD_KM then
        some ⟨pyLower vr.from_location, pyLower vr.to_location, entry_distance, exit_distance⟩
      else proximityFallback dist e_lat e_lon x_lat x_lon rest
    | _, _ => proximityFallback dist e_lat e_lon x_lat x_lon rest

/-- Which rule of `_check_location_proximity` fired. -/
inductive CLPDetail where
  | stops (m : StopsMatch)
  | prox (p : ProxMatch)
deriving Repr, DecidableEq

/-- Embedding of `RouteDetector._check_location_proximity` (route_detector.py:285-424).
`busRoutesDB` models `self.db['busRoutes'].find({'is_active': True})`;
an exception there is caught and control falls through to the
known-locations fallback. -/
def check_location_proximity (dist : ℚ → ℚ → ℚ → ℚ → ℚ)
    (busRoutesDB : Except Unit (List RouteWithStops))
    (e_lat e_lon x_lat x_lon : ℚ) (vrs : List ValidRoute) : Bool × Option CLPDetail :=
  let stopsRes : Option StopsMatch :=
    match busRoutesDB with
    | .error _ => none
    | .ok routes => routeStopsPhase dist e_lat e_lon x_lat x_lon vrs
        (routes.filter (·.is_active))
  match stopsRes with
  | some m => (true, some (.stops m))
  | none =>
    match proximityFallback dist e_lat e_lon x_lat x_lon vrs with
    | some p => (true, some (.prox p))
    | none => (false, none)

/-! ## Trip ledger (`SimplifiedBusTracker`, simplified_bus_server.py) -/

/-- A face embedding: fixed-length numeric vector, treated opaquely. -/
abbrev Emb := List ℚ

/-- A GPS payload as stored in entry/exit records. -/
structure GPSLoc where
  latitude : ℚ
  longitude : ℚ
  device_id : Option String
  timestamp : Option ℤ
deriving Repr, DecidableEq, Inhabited

/-- A `temp_entries` document (an open EntryRecord).  `eid` models the
MongoDB `_id`. -/
structure TempEntry where
  eid : ℕ
  trip_id : ℤ
  trip_start_time : ℤ
  route_name : String
  face_id : ℕ
  face_embedding : Emb
  embedding_size : ℕ
  entry_location : GPSLoc
  entry_timestamp : ℤ
deriving Repr, DecidableEq

/-- An `unmatchedPassengers` document. -/
structure UnmatchedRecord where
  trip_id : ℤ
  trip_start_time : ℤ
  route_name : String
  rec_type : String
  face_id : ℕ
  face_embedding : Emb
  embedding_size : ℕ
  location : GPSLoc
  timestamp : ℤ
  best_similarity_found : ℚ
  reason : String
deriving Repr, DecidableEq

/-- Result of `calculate_road_distance` (success case or the
"Distance calculation failed" placeholder). -/
structure DistInfo where
  distance_km : ℚ
  duration_minutes : ℚ
  provider : String
  success : Bool
deriving Repr, DecidableEq, Inhabited

/-- The detail returned alongside the boolean by
`is_route_valid_for_season_ticket`: either the route detector's match
info (summarised as a string) or the matching `valid_route` entry of the
fallback. -/
inductive RVDetail where
  | info (s : String)
  | vroute (vr : ValidRoute)
deriving Repr, DecidableEq

/-- A `seasonTicketMembers` document. -/
structure Member where
  member_id : String
  name : String
  face_embedding : Emb
  valid_from : ℤ
  valid_until : ℤ
  is_active : Bool
  valid_routes : List ValidRoute
  ticket_type : Option String
  total_trips : ℕ
  last_used : Option ℤ
deriving Repr, DecidableEq

/-- The `season_ticket_info` block of a final passenger record. -/
structure SeasonTicketInfo where
  member_id : String
  member_name : String
  ticket_type : String
  valid_until : Option ℤ
  similarity_score : ℚ
  valid_route : Option RVDetail
deriving Repr, DecidableEq

/-- A `busPassengerList` document (FinalJourney).  The reverse-geocoded
`location_name` entries of the two location dicts are modelled as the
separate `*_location_name` fields. -/
structure FinalPassenger where
  pid : ℕ
  trip_id : ℤ
  trip_start_time : ℤ
  route_name : String
  is_season_ticket : Bool
  season_ticket_info : Option SeasonTicketInfo
  entry_location : GPSLoc
  entry_location_name : Option String
  exit_location : GPSLoc
  exit_location_name : Option String
  entry_timestamp : ℤ
  exit_timestamp : ℤ
  journey_duration_minutes : ℚ
  similarity_score : ℚ
  entry_face_id : ℕ
  exit_face_id : ℕ
  distance_info : DistInfo
  price : ℚ
  stage_number : ℤ
deriving Repr, DecidableEq, Inhabited

/-- Trip status as stored in `tripSessions`. -/
inductive TripStatus where
  | active
  | completed
deriving Repr, DecidableEq

/-- A `tripSessions` document; `sid` models the MongoDB `_id`. -/
structure TripSession where
  sid : ℕ
  trip_id : ℤ
  route_name : String
  start_time : ℤ
  end_time : Option ℤ
  status : TripStatus
  total_passengers : ℕ
  total_unmatched : ℕ
deriving Repr, DecidableEq

/-- The tracker's in-memory `self.current_trip`. -/
structure CurrentTrip where
  trip_id : ℤ
  start_time : ℤ
  status : TripStatus
  sid : ℕ
deriving Repr, DecidableEq

/-- The persistent state of the (single-bus) tracker: the collections it
owns.  `next_sid` models MongoDB generating fresh `_id`s for trip
sessions. -/
structure LedgerState where
  current_trip : Option CurrentTrip
  temp_entries : List TempEntry
  final_passengers : List FinalPassenger
  unmatched_passengers : List UnmatchedRecord
  trip_sessions : List TripSession
  members : List Member
  next_sid : ℕ
deriving Repr, DecidableEq

/-- External collaborators and configuration of the tracker, as inputs:
cosine similarity on embeddings (floating-point, kept abstract), the two
similarity thresholds (`0.7` / `0.65` in the source), the 48 h window,
the wall clock, the `fareStages` collection, the road-distance provider,
the reverse geocoder, and the route detector's DB-backed matcher
(`find_matching_season_ticket_routes`), `none` when the detector failed
to initialise. -/
structure Env where
  sim : Emb → Emb → ℚ
  similarity_threshold : ℚ
  season_threshold : ℚ
  time_window_hours : ℤ
  now : ℤ
  fare_db : Except Unit (List FareStage)
  road_distance : ℚ → ℚ → ℚ → ℚ → Option DistInfo
  geocode : ℚ → ℚ → Option String
  detector : Option (List ValidRoute → ℚ → ℚ → ℚ → ℚ → Bool × Option String)
  route_name : String

/-- Unix time of 2020-01-01: timestamps older than this are treated as an
unsynchronised device clock. -/
def EPOCH_2020 : ℤ := 1577836800

/-- Embedding of `_parse_timestamp_safe` (simplified_bus_server.py:137-163): empty or
unparseable timestamps (`none`) and pre-2020 timestamps are replaced by
the server's wall clock. -/
def parse_timestamp_safe (now : ℤ) : Option ℤ → ℤ
  | none => now
  | some t => if t < EPOCH_2020 then now else t

/-- Embedding of `check_season_ticket_member` (simplified_bus_server.py:698-783):
filters the active, date-valid members with a non-empty embedding, then
scans them tracking the best similarity seen, latching the member only
when the similarity also beats the season-ticket threshold.  Returns
`(none, 0)` when no member beat the threshold. -/
def check_season_ticket_member (env : Env) (members : List Member)
    (face_embedding : Emb) : Option Member × ℚ :=
  if face_embedding.isEmpty then (none, 0)
  else
    let active := members.filter (fun m =>
      m.is_active && decide (m.valid_from ≤ env.now) && decide (env.now ≤ m.valid_until) &&
      !m.face_embedding.isEmpty)
    if active.isEmpty then (none, 0)
    else
      let scan := active.foldl (fun (acc : Option Member × ℚ) m =>
        if m.face_embedding.isEmpty then acc
        else
          let sv := env.sim face_embedding m.face_embedding
          if sv > acc.2 then
            (if sv > env.season_threshold then some m else acc.1, sv)
          else acc) (none, 0)
      match scan.1 with
      | some m => (some m, scan.2)
      | none => (none, 0)

/-- Embedding of `_fallback_route_validation` (simplified_bus_server.py:945-969):
route-name substring matching against the bus's configured route name. -/
def fallback_route_validation (route_name : String) :
    List ValidRoute → Bool × Option RVDetail
  | [] => (false, none)
  | vr :: rest =>
    if vr.route_patterns.isEmpty then
      if strHas (pyLower vr.from_location) (pyLower route_name) &&
         strHas (pyLower vr.to_location) (pyLower route_name) then
        (true, some (.vroute vr))
      else fallback_route_validation route_name rest
    else
      match vr.route_patterns.find? (fun p =>
          strHas (pyLower p) (pyLower route_name) || strHas (pyLower route_name) (pyLower p)) with
      | some _ => (true, some (.vroute vr))
      | none => fallback_route_validation route_name rest

/-- Embedding of `is_route_valid_for_season_ticket` (simplified_bus_server.py:897-943).
An empty `valid_routes` list means no restriction: valid everywhere.
Coordinates equal to `0` model Python-falsy GPS values (missing or zero),
which send the check to the route-name fallback, as does an absent route
detector. -/
def is_route_valid_for_season_ticket (env : Env) (m : Member)
    (entry_location exit_location : GPSLoc) : Bool × Option RVDetail :=
  if m.valid_routes.isEmpty then (true, none)
  else if entry_location.latitude = 0 ∨ entry_location.longitude = 0 ∨
          exit_location.latitude = 0 ∨ exit_location.longitude = 0 then
    fallback_route_validation env.route_name m.valid_routes
  else
    match env.detector with
    | some det =>
      let res := det m.valid_routes entry_location.latitude entry_location.longitude
                   exit_location.latitude exit_location.longitude
      (res.1, res.2.map .info)
    | none => fallback_route_validation env.route_name m.valid_routes

/-- An incoming EXIT face log (`exit_log` dict; missing GPS defaults to
`0` via `.get('latitude', 0)`). -/
structure ExitLog where
  face_id : ℕ
  face_embedding : Emb
  embedding_size : ℕ
  latitude : ℚ
  longitude : ℚ
  device_id : Option String
  timestamp : Option ℤ
deriving Repr, DecidableEq

/-- The `temp_entries` query of `find_matching_entry`
(simplified_bus_server.py:1041-1046): same trip only, inside the lookback
window, non-empty embedding, sorted by `entry_timestamp` descending. -/
def candidatesFor (env : Env) (ct : CurrentTrip) (s : LedgerState) : List TempEntry :=
  let time_threshold := env.now - env.time_window_hours * 3600
  List.insertionSort (fun a b => b.entry_timestamp ≤ a.entry_timestamp)
    (s.temp_entries.filter (fun e =>
      e.trip_id == ct.trip_id && decide (time_threshold ≤ e.entry_timestamp) &&
      !e.face_embedding.isEmpty))

/-- The similarity scan of `find_matching_entry`
(simplified_bus_server.py:1061-1078): the running best similarity is
updated ONLY when the candidate also beats the matching threshold
(`similarity > best_similarity and similarity > self.similarity_threshold`). -/
def scanBest (env : Env) (exit_emb : Emb) (entries : List TempEntry) :
    Option TempEntry × ℚ :=
  entries.foldl (fun (acc : Option TempEntry × ℚ) e =>
    if e.face_embedding.isEmpty then acc
    else
      let sv := env.sim exit_emb e.face_embedding
      if sv > acc.2 ∧ sv > env.similarity_threshold then (some e, sv) else acc)
    (none, 0)

/-- The true maximum cosine similarity over the open entries — what spec
§4.5 says must be reported even on a no-match.  Written from the spec for
comparison with `scanBest`. -/
def trueBestSimilarity (env : Env) (exit_emb : Emb) (entries : List TempEntry) : ℚ :=
  entries.foldl (fun acc e =>
    if e.face_embedding.isEmpty then acc else max acc (env.sim exit_emb e.face_embedding)) 0

/-- The "Distance calculation failed" placeholder dict
(simplified_bus_server.py:1194-1200). -/
def distInfoOrDefault : Option DistInfo → DistInfo
  | some di => di
  | none => ⟨0, 0, "unavailable", false⟩

/-- The match branch of `find_matching_entry`
(simplified_bus_server.py:1082-1217): builds the final passenger record
(road distance, season-ticket check and route validation, fare, reverse
geocoding), inserts it, updates the member statistics on an exempted
journey, and deletes the consumed temp entry by `_id`. -/
def buildFinal (env : Env) (ct : CurrentTrip) (exit_log : ExitLog) (s : LedgerState)
    (best : TempEntry) (best_similarity : ℚ) : FinalPassenger × LedgerState :=
  let passenger_id := s.final_passengers.length + 1
  let distance_info := env.road_distance best.entry_location.latitude
    best.entry_location.longitude exit_log.latitude exit_log.longitude
  let seasonRes := check_season_ticket_member env s.members exit_log.face_embedding
  let exit_loc_v : GPSLoc := ⟨exit_log.latitude, exit_log.longitude, none, none⟩
  let quad : Bool × ℚ × Option SeasonTicketInfo × List Member :=
    match seasonRes.1 with
    | some m =>
      let rv := is_route_valid_for_season_ticket env m best.entry_location exit_loc_v
      if rv.1 then
        (true, (0 : ℚ),
         some (⟨m.member_id, m.name, m.ticket_type.getD ("monthly"), some m.valid_until,
                seasonRes.2, rv.2⟩ : SeasonTicketInfo),
         s.members.map (fun x => if x.member_id == m.member_id then
           { x with total_trips := x.total_trips + 1, last_used := some env.now } else x))
      else
        let dkm := (distance_info.map (·.distance_km)).getD 0
        (false, calculate_fare env.fare_db (.num dkm), none, s.members)
    | none =>
      let dkm := (distance_info.map (·.distance_km)).getD 0
      (false, calculate_fare env.fare_db (.num dkm), none, s.members)
  let stage_number : ℤ :=
    match distance_info with
    | some di => if di.distance_km > 0 then ⌈di.distance_km / STAGE_DISTANCE⌉ else 0
    | none => 0
  let exit_ts := parse_timestamp_safe env.now exit_log.timestamp
  let fp : FinalPassenger := {
    pid := passenger_id, trip_id := ct.trip_id, trip_start_time := ct.start_time,
    route_name := env.route_name, is_season_ticket := quad.1,
    season_ticket_info := quad.2.2.1,
    entry_location := best.entry_location,
    entry_location_name := env.geocode best.entry_location.latitude
      best.entry_location.longitude,
    exit_location := ⟨exit_log.latitude, exit_log.longitude, exit_log.device_id,
      exit_log.timestamp⟩,
    exit_location_name := env.geocode exit_log.latitude exit_log.longitude,
    entry_timestamp := best.entry_timestamp, exit_timestamp := exit_ts,
    journey_duration_minutes := ((exit_ts - best.entry_timestamp : ℤ) : ℚ) / 60,
    similarity_score := best_similarity,
    entry_face_id := best.face_id, exit_face_id := exit_log.face_id,
    distance_info := distInfoOrDefault distance_info,
    price := quad.2.1, stage_number := stage_number }
  (fp,
   { s with final_passengers := s.final_passengers ++ [fp],
            temp_entries := s.temp_entries.eraseP (fun x => x.eid == best.eid),
            members := quad.2.2.2 })

/-- Embedding of `find_matching_entry(exit_log)` (simplified_bus_server.py:1027-1223):
returns `(match, best_similarity)` and the updated state. -/
def find_matching_entry (env : Env) (exit_log : ExitLog) (s : LedgerState) :
    (Option FinalPassenger × ℚ) × LedgerState :=
  if exit_log.face_embedding.isEmpty then ((none, 0), s)
  else
    match s.current_trip with
    | none => ((none, 0), s)
    | some ct =>
      if ct.status != TripStatus.active then ((none, 0), s)
      else
        let entries_list := candidatesFor env ct s
        if entries_list.isEmpty then ((none, 0), s)
        else
          let bm := scanBest env exit_log.face_embedding entries_list
          match bm.1 with
          | none => ((none, bm.2), s)
          | some best =>
            let r := buildFinal env ct exit_log s best bm.2
            ((some r.1, bm.2), r.2)

/-- Embedding of `store_unmatched_exit(exit_log, best_similarity)`
(simplified_bus_server.py:1280-1315). -/
def store_unmatched_exit (env : Env) (exit_log : ExitLog) (best_similarity : ℚ)
    (s : LedgerState) : Option UnmatchedRecord × LedgerState :=
  match s.current_trip with
  | none => (none, s)
  | some ct =>
    if ct.status != TripStatus.active then (none, s)
    else
      let u : UnmatchedRecord := {
        trip_id := ct.trip_id, trip_start_time := ct.start_time,
        route_name := env.route_name, rec_type := "EXIT",
        face_id := exit_log.face_id, face_embedding := exit_log.face_embedding,
        embedding_size := exit_log.embedding_size,
        location := ⟨exit_log.latitude, exit_log.longitude, exit_log.device_id,
          exit_log.timestamp⟩,
        timestamp := parse_timestamp_safe env.now exit_log.timestamp,
        best_similarity_found := best_similarity,
        reason := "No matching entry found" }
      (some u, { s with unmatched_passengers := s.unmatched_passengers ++ [u] })

/-- Outcome of processing an EXIT log (`process_face_log`, EXIT branch). -/
inductive ExitOutcome where
  | matched (fp : FinalPassenger)
  | unmatchedStored (u : Option UnmatchedRecord) (best : ℚ)
deriving Repr, DecidableEq

/-- The EXIT branch of `process_face_log`
(simplified_bus_server.py:1247-1272): try to match; otherwise store an
unmatched exit carrying the similarity returned by the matcher. -/
def process_exit_log (env : Env) (exit_log : ExitLog) (s : LedgerState) :
    ExitOutcome × LedgerState :=
  let r := find_matching_entry env exit_log s
  match r.1.1 with
  | some fp => (.matched fp, r.2)
  | none =>
    let st := store_unmatched_exit env exit_log r.1.2 r.2
    (.unmatchedStored st.1 r.1.2, st.2)

/-- Conversion applied by `end_current_trip` to each still-open entry of
the ending trip (simplified_bus_server.py:287-305). -/
def entryToUnmatchedTripEnd (ct : CurrentTrip) (e : TempEntry) : UnmatchedRecord :=
  { trip_id := ct.trip_id, trip_start_time := ct.start_time, route_name := e.route_name,
    rec_type := "ENTRY", face_id := e.face_id, face_embedding := e.face_embedding,
    embedding_size := e.embedding_size, location := e.entry_location,
    timestamp := e.entry_timestamp, best_similarity_found := 0,
    reason := "Trip ended - no exit match found" }

/-- Embedding of `end_current_trip()` (simplified_bus_server.py:266-331): no-op
reporting failure when no trip is active; otherwise moves the trip's open
entries to `unmatchedPassengers`, deletes them from `temp_entries`, and
completes the trip session with its summary counts. -/
def end_current_trip (now : ℤ) (s : LedgerState) : Bool × LedgerState :=
  match s.current_trip with
  | none => (false, s)
  | some ct =>
    let passenger_count := (s.final_passengers.filter (fun fp => fp.trip_id == ct.trip_id)).length
    let remaining := s.temp_entries.filter (fun e => e.trip_id == ct.trip_id)
    let newUnmatched := remaining.map (entryToUnmatchedTripEnd ct)
    (true,
     { s with
       current_trip := none,
       temp_entries := s.temp_entries.filter (fun e => !(e.trip_id == ct.trip_id)),
       unmatched_passengers := s.unmatched_passengers ++ newUnmatched,
       trip_sessions := s.trip_sessions.map (fun ss =>
         if ss.sid == ct.sid then
           { ss with status := .completed, end_time := some now,
                     total_passengers := passenger_count,
                     total_unmatched := newUnmatched.length }
         else ss) })

/-- Conversion applied by the orphan cleanup of `start_new_trip`
(simplified_bus_server.py:199-223). -/
def entryToUnmatchedOrphan (e : TempEntry) : UnmatchedRecord :=
  { trip_id := e.trip_id, trip_start_time := e.trip_start_time, route_name := e.route_name,
    rec_type := "ENTRY", face_id := e.face_id, face_embedding := e.face_embedding,
    embedding_size := e.embedding_size, location := e.entry_location,
    timestamp := e.entry_timestamp, best_similarity_found := 0,
    reason := "Orphaned entry - cleaned up before new trip" }

/-- Embedding of `start_new_trip(start_time)` (simplified_bus_server.py:189-264): ends
the currently active trip if any, converts any orphaned `temp_entries`
left in the buffer to unmatched records and empties the buffer, then
inserts a fresh ACTIVE trip session and points `current_trip` at it.
`generate_trip_id` is deterministic in the start time, modelled by using
the start time itself as the trip id; the route name (possibly
auto-detected from the initial GPS) is an input. -/
def start_new_trip (route_name : String) (start_time now : ℤ) (s : LedgerState) :
    LedgerState :=
  let s1 :=
    match s.current_trip with
    | some ct => if ct.status == TripStatus.active then (end_current_trip now s).2 else s
    | none => s
  let s2 := { s1 with
    unmatched_passengers := s1.unmatched_passengers ++ s1.temp_entries.map entryToUnmatchedOrphan,
    temp_entries := [] }
  let session : TripSession := {
    sid := s2.next_sid, trip_id := start_time, route_name := route_name,
    start_time := start_time, end_time := none, status := .active,
    total_passengers := 0, total_unmatched := 0 }
  { s2 with trip_sessions := s2.trip_sessions ++ [session],
            current_trip := some ⟨start_time, start_time, .active, s2.next_sid⟩,
            next_sid := s2.next_sid + 1 }

/-- The ACTIVE trip sessions of the ledger. -/
def activeSessions (s : LedgerState) : List TripSession :=
  s.trip_sessions.filter (fun ss => ss.status == TripStatus.active)

/-- Well-formedness of the ledger state: session ids are below the next
fresh id and duplicate-free, and `current_trip` is consistent with the
ACTIVE sessions (none, or exactly the one it points to). -/
def ledgerWF (s : LedgerState) : Bool :=
  s.trip_sessions.all (fun ss => ss.sid < s.next_sid) &&
  decide ((s.trip_sessions.map (fun ss => ss.sid)).Nodup) &&
  match s.current_trip with
  | none => activeSessions s == []
  | some ct => ct.status == TripStatus.active &&
      (activeSessions s).map (fun ss => ss.sid) == [ct.sid]

/-- Number of ACTIVE trip sessions (the spec's "exactly one ACTIVE trip
per bus" count). -/
def countActive (s : LedgerState) : ℕ := (activeSessions s).length

/-! ## Concrete scenario data

Used by the closed counterexample/witness theorems below.  The
floating-point Haversine core is instantiated with `planarDistKm`; all
sample coordinates are real Sri Lankan town coordinates (or same-longitude
points), chosen so far from the 10 km decision boundary that the
equirectangular approximation and the true Haversine distance agree on
every comparison made. -/

/-- Equirectangular surrogate for the Haversine core: 111 km per degree.
On the same-longitude / small-offset sample points used below it orders
and bounds distances exactly as the true Haversine does. -/
def planarDistKm (lat1 lon1 lat2 lon2 : ℚ) : ℚ :=
  111 * (|lat2 - lat1| + |lon2 - lon1|)

/-- A stop 0.05° (≈ 5.6 km) north of the sample entry point (9, 80);
listed FIRST on the route. -/
def demoStopFar : BusStop := ⟨"Station A", some (905/100), some 80, some 1⟩

/-- A stop 0.001° (≈ 0.11 km) north of the sample entry point; nearer,
but listed second. -/
def demoStopNear : BusStop := ⟨"Station B", some (9001/1000), some 80, some 2⟩

/-- The stop list of the nearest-stop counterexample. -/
def demoStops : List BusStop := [demoStopFar, demoStopNear]

/-- Jaffna bus stop, `stop_order` 1. -/
def jaffnaStop : BusStop := ⟨"Jaffna", some (96615/10000), some (800255/10000), some 1⟩

/-- Colombo bus stop, `stop_order` 8. -/
def colomboStop : BusStop := ⟨"Colombo", some (69271/10000), some (798612/10000), some 8⟩

/-- Kilinochchi bus stop, `stop_order` 2. -/
def kilinochchiStop : BusStop := ⟨"Kilinochchi", some (93833/10000), some (804000/10000), some 2⟩

/-- Jaffna→Colombo route for the wrong-direction scenario. -/
def routeJC : RouteWithStops := ⟨"Jaffna-Colombo", true, [jaffnaStop, colomboStop]⟩

/-- Jaffna→Kilinochchi route for the accepted-sub-segment scenario. -/
def routeJK : RouteWithStops := ⟨"Jaffna-Kilinochchi", true, [jaffnaStop, kilinochchiStop]⟩

/-- Member segment Jaffna→Colombo. -/
def vrJC : ValidRoute := ⟨"Jaffna", "Colombo", []⟩

/-- Member segment Jaffna→Kilinochchi. -/
def vrJK : ValidRoute := ⟨"Jaffna", "Kilinochchi", []⟩

/-- Expected `route_stops` match of the accepted scenario. -/
def scenAMatch : StopsMatch := ⟨"Jaffna-Kilinochchi", "Jaffna", "Kilinochchi", 1, 2⟩

/-- Sample active current trip. -/
def cexCT : CurrentTrip := ⟨100, 1578800000, .active, 0⟩

/-- Trip session backing `cexCT`. -/
def cexSession : TripSession := ⟨0, 100, "Jaffna-Colombo", 1578800000, none, .active, 0, 0⟩

/-- One open entry of the current trip, embedding `[1]`. -/
def cexEntry : TempEntry :=
  ⟨1, 100, 1578800000, "Jaffna-Colombo", 7, [1], 1,
   ⟨96/10, 80, some ("ESP32_ENTRY"), some 1578899000⟩, 1578899000⟩

/-- Ledger state with one active trip and one open entry. -/
def cexState : LedgerState :=
  ⟨some cexCT, [cexEntry], [], [], [cexSession], [], 1⟩

/-- Environment whose similarity function gives `1` on equal embeddings
and `1/2` otherwise, with the source's thresholds (`0.7`, `0.65`) and
48 h window. -/
def cexEnv : Env :=
  { sim := fun a b => if a = b then 1 else 1/2,
    similarity_threshold := 7/10, season_threshold := 65/100,
    time_window_hours := 48, now := 1578900000,
    fare_db := .ok [], road_distance := fun _ _ _ _ => none,
    geocode := fun _ _ => none, detector := none,
    route_name := "Jaffna-Colombo" }

/-- An exit log whose embedding `[2]` has similarity `1/2` with the open
entry — below the `0.7` threshold. -/
def cexExit : ExitLog := ⟨8, [2], 1, 7, 798/10, some ("ESP32_EXIT"), some 1578900000⟩

/-- A season-ticket member with NO route restrictions (`valid_routes = []`). -/
def wMember : Member :=
  ⟨"M001", "Alice", [5], 1577836800, 2600000000, true, [], some ("monthly"), 0, none⟩

/-- Environment whose similarity function is constantly `1`, so the exit
matches the open entry and the member roster. -/
def wEnv : Env :=
  { sim := fun _ _ => 1,
    similarity_threshold := 7/10, season_threshold := 65/100,
    time_window_hours := 48, now := 1578900000,
    fare_db := .ok [], road_distance := fun _ _ _ _ => some ⟨100, 120, "osrm", true⟩,
    geocode := fun _ _ => some ("Town"), detector := none,
    route_name := "Jaffna-Colombo" }

/-- Ledger state with one active trip, one open entry and the
unrestricted member enrolled. -/
def wState : LedgerState :=
  ⟨some cexCT, [cexEntry], [], [], [cexSession], [wMember], 1⟩

/-- A fare table whose fares DECREASE with the stage number — the
configuration under which fare monotonicity fails. -/
def badFareTable : List FareStage := [⟨1, 100, true⟩, ⟨2, 5, true⟩]

/-- A well-formed sample fare table (non-negative, non-decreasing). -/
def demoFareTable : List FareStage := [⟨1, 30, true⟩, ⟨2, 40, true⟩, ⟨3, 50, true⟩]


/-! ## Theorems

One theorem (plus witness/counterexample where required) per claim,
preceded by the general lemmas they rely on. -/

/-- C2 (counterexample): on a non-numeric first coordinate,
`calculate_haversine_distance` returns the plain value `0` to its caller
— indistinguishable from a genuine zero distance — even though the
numeric core (here constantly `999`) is never the source of that `0`; no
error outcome is reported.  This falsifies "reports an error outcome to
its caller and never silently returns zero as the distance". -/
theorem claim_C2_counterexample :
    calculate_haversine_distance (fun _ _ _ _ => 999) PyVal.nonNum (PyVal.num 80)
      (PyVal.num 9) (PyVal.num 80) = 0 ∧
    calculate_haversine_distance (fun _ _ _ _ => 999) (PyVal.num 9) (PyVal.num 80)
      (PyVal.num 10) (PyVal.num 81) = 999 :=
  ⟨rfl, rfl⟩

/-- C2 (amended): on every invalid/non-numeric coordinate input,
`RouteDetector.calculate_distance` returns the `float('inf')` sentinel
(never a zero distance), while `calculate_haversine_distance` in
simplified_bus_server.py catches the error and silently returns `0.0`;
neither raises an error to the caller. -/
theorem claim_C2_amended (core : ℚ → ℚ → ℚ → ℚ → ℚ) (a b c d : PyVal)
    (h : allNumeric a b c d = false) :
    rd_calculate_distance core a b c d = RDDist.inf ∧
    calculate_haversine_distance core a b c d = 0 := by
  cases a <;> cases b <;> cases c <;> cases d <;>
    simp_all [allNumeric, rd_calculate_distance, calculate_haversine_distance]

/-- C2 (witness): the amended theorem applied to a concrete invalid
input. -/
theorem claim_C2_witness :
    rd_calculate_distance (fun _ _ _ _ => 999) PyVal.nonNum (PyVal.num 80)
      (PyVal.num 9) (PyVal.num 80) = RDDist.inf ∧
    calculate_haversine_distance (fun _ _ _ _ => 999) PyVal.nonNum (PyVal.num 80)
      (PyVal.num 9) (PyVal.num 80) = 0 :=
  claim_C2_amended (fun _ _ _ _ => 999) PyVal.nonNum (PyVal.num 80)
    (PyVal.num 9) (PyVal.num 80) rfl

/-- C10: when fare computation fails internally — a non-numeric distance
argument, or an exception raised while querying the fare-stage
collection — `calculate_fare` swallows the error and returns `0.0`
instead of surfacing an error to the caller. -/
theorem claim_C10 :
    (∀ db : Except Unit (List FareStage), calculate_fare db PyVal.nonNum = 0) ∧
    (∀ d : PyVal, calculate_fare (Except.error ()) d = 0) := by
  constructor
  · intro db
    rfl
  · intro d
    cases d with
    | nonNum => rfl
    | num q =>
      simp only [calculate_fare]
      split
      · rfl
      · split <;> rfl

/-- C1 (evaluation at the failing input): an exit whose best cosine
similarity against the open entries is `1/2` under threshold `0.7`
produces an UnmatchedRecord whose `best_similarity_found` is `0`, not the
true maximum `1/2`: the scan in `find_matching_entry` only updates its
running best when the similarity also beats the threshold, so the
diagnostic value required by the spec (Scenario E) is lost. -/
theorem claim_C1_code_bug :
    (find_matching_entry cexEnv cexExit cexState).1 = (none, 0) ∧
    ((process_exit_log cexEnv cexExit cexState).2.unmatched_passengers.map
      (fun u => u.best_similarity_found)) = [0] ∧
    trueBestSimilarity cexEnv cexExit.face_embedding
      (candidatesFor cexEnv cexCT cexState) = 1/2 ∧
    ((1/2 : ℚ) ≠ 0) := by
  refine ⟨?_, ?_, ?_, by norm_num⟩ <;>
    norm_num [find_matching_entry, process_exit_log, store_unmatched_exit, candidatesFor,
      scanBest, trueBestSimilarity, cexEnv, cexExit, cexState, cexCT, cexEntry,
      List.insertionSort, List.orderedInsert]

/-- The entry channel of the stop-scanning loop latches exactly the
first stop in list order with truthy coordinates within the radius. -/
theorem findStopsAux_fst (dist : ℚ → ℚ → ℚ → ℚ → ℚ) (e_lat e_lon x_lat x_lon : ℚ)
    (l : List BusStop) :
    ∀ es xs, (findStopsAux dist e_lat e_lon x_lat x_lon es xs l).1 =
      Option.or es (firstStopWithin dist e_lat e_lon l) := by
  induction l with
  | nil =>
    intro es xs
    cases es <;> simp [findStopsAux, firstStopWithin]
  | cons st rest ih =>
    intro es xs
    by_cases ht : (truthyQ st.latitude && truthyQ st.longitude) = true
    · rw [findStopsAux, if_pos ht]
      cases es with
      | some e =>
        simp only [Option.isNone_some, Bool.false_and, if_false, ih]
        simp [firstStopWithin, List.find?]
      | none =>
        by_cases hc : decide (dist e_lat e_lon (st.latitude.getD 0) (st.longitude.getD 0) ≤
            PROXIMITY_THRESHOLD_KM) = true
        · simp only [Option.isNone_none, Bool.true_and, hc, if_true, ih]
          have hp : (truthyQ st.latitude && truthyQ st.longitude &&
              decide (dist e_lat e_lon (st.latitude.getD 0) (st.longitude.getD 0) ≤
                PROXIMITY_THRESHOLD_KM)) = true := by
            rw [ht, hc]
            rfl
          simp [firstStopWithin, List.find?, hp, Option.or]
        · simp only [Option.isNone_none, Bool.true_and, hc, if_false, ih]
          have hp : (truthyQ st.latitude && truthyQ st.longitude &&
              decide (dist e_lat e_lon (st.latitude.getD 0) (st.longitude.getD 0) ≤
                PROXIMITY_THRESHOLD_KM)) = false := by
            rw [ht]
            simpa using hc
          simp [firstStopWithin, List.find?, hp, Option.or]
    · rw [findStopsAux, if_neg ht]
      have hp : (truthyQ st.latitude && truthyQ st.longitude &&
          decide (dist e_lat e_lon (st.latitude.getD 0) (st.longitude.getD 0) ≤
            PROXIMITY_THRESHOLD_KM)) = false := by
        rw [Bool.and_eq_false_iff]
        left
        simpa using ht
      rw [ih]
      simp [firstStopWithin, List.find?, hp]

/-- The exit channel of the stop-scanning loop, symmetrically. -/
theorem findStopsAux_snd (dist : ℚ → ℚ → ℚ → ℚ → ℚ) (e_lat e_lon x_lat x_lon : ℚ)
    (l : List BusStop) :
    ∀ es xs, (findStopsAux dist e_lat e_lon x_lat x_lon es xs l).2 =
      Option.or xs (firstStopWithin dist x_lat x_lon l) := by
  induction l with
  | nil =>
    intro es xs
    cases xs <;> simp [findStopsAux, firstStopWithin]
  | cons st rest ih =>
    intro es xs
    by_cases ht : (truthyQ st.latitude && truthyQ st.longitude) = true
    · rw [findStopsAux, if_pos ht]
      cases xs with
      | some x =>
        simp only [Option.isNone_some, Bool.false_and, if_false, ih]
        simp [firstStopWithin, List.find?]
      | none =>
        by_cases hc : decide (dist x_lat x_lon (st.latitude.getD 0) (st.longitude.getD 0) ≤
            PROXIMITY_THRESHOLD_KM) = true
        · simp only [Option.isNone_none, Bool.true_and, hc, if_true, ih]
          have hp : (truthyQ st.latitude && truthyQ st.longitude &&
              decide (dist x_lat x_lon (st.latitude.getD 0) (st.longitude.getD 0) ≤
                PROXIMITY_THRESHOLD_KM)) = true := by
            rw [ht, hc]
            rfl
          simp [firstStopWithin, List.find?, hp, Option.or]
        · simp only [Option.isNone_none, Bool.true_and, hc, if_false, ih]
          have hp : (truthyQ st.latitude && truthyQ st.longitude &&
              decide (dist x_lat x_lon (st.latitude.getD 0) (st.longitude.getD 0) ≤
                PROXIMITY_THRESHOLD_KM)) = false := by
            rw [ht]
            simpa using hc
          simp [firstStopWithin, List.find?, hp, Option.or]
    · rw [findStopsAux, if_neg ht]
      have hp : (truthyQ st.latitude && truthyQ st.longitude &&
          decide (dist x_lat x_lon (st.latitude.getD 0) (st.longitude.getD 0) ≤
            PROXIMITY_THRESHOLD_KM)) = false := by
        rw [Bool.and_eq_false_iff]
        left
        simpa using ht
      rw [ih]
      simp [firstStopWithin, List.find?, hp]

/-- C3 (amended): for every point, segment matching selects the FIRST
stop in the route's stop list (with truthy coordinates) lying within the
10 km capture radius — for the entry point and the exit point
independently — not necessarily the nearest such stop. -/
theorem claim_C3_amended (dist : ℚ → ℚ → ℚ → ℚ → ℚ) (e_lat e_lon x_lat x_lon : ℚ)
    (stops : List BusStop) :
    findStops dist e_lat e_lon x_lat x_lon stops =
      (firstStopWithin dist e_lat e_lon stops, firstStopWithin dist x_lat x_lon stops) := by
  have h1 := findStopsAux_fst dist e_lat e_lon x_lat x_lon stops none none
  have h2 := findStopsAux_snd dist e_lat e_lon x_lat x_lon stops none none
  rw [findStops]
  ext : 1
  · rw [h1]
    cases firstStopWithin dist e_lat e_lon stops <;> simp [Option.or]
  · rw [h2]
    cases firstStopWithin dist x_lat x_lon stops <;> simp [Option.or]

/-- C3 (counterexample): with two stops both inside the 10 km capture
radius of the entry point, the stop-matching loop selects `demoStopFar`
(first in list order, ≈ 5.6 km away) although `demoStopNear` (≈ 0.11 km
away) is strictly nearer — falsifying "selects the stop nearest to the
entry point among the route's stops within the 10 km capture radius". -/
theorem claim_C3_counterexample :
    (findStops planarDistKm 9 80 9 80 demoStops).1 = some demoStopFar ∧
    demoStopNear ∈ demoStops ∧
    planarDistKm 9 80 ((demoStopNear.latitude).getD 0) ((demoStopNear.longitude).getD 0) ≤
      PROXIMITY_THRESHOLD_KM ∧
    planarDistKm 9 80 ((demoStopNear.latitude).getD 0) ((demoStopNear.longitude).getD 0) <
      planarDistKm 9 80 ((demoStopFar.latitude).getD 0) ((demoStopFar.longitude).getD 0) := by
  refine ⟨?_, ?_, ?_, ?_⟩
  · norm_num [findStops, findStopsAux, demoStops, demoStopFar, demoStopNear, truthyQ,
      planarDistKm, PROXIMITY_THRESHOLD_KM, abs_of_nonneg, abs_of_nonpos]
  · simp [demoStops]
  · norm_num [planarDistKm, demoStopNear, PROXIMITY_THRESHOLD_KM, abs_of_nonneg,
      abs_of_nonpos]
  · norm_num [planarDistKm, demoStopNear, demoStopFar, abs_of_nonneg, abs_of_nonpos]

/-- A `route_stops` match produced for one route carries strictly
increasing stop orders. -/
theorem routeStopOnce_lt (dist : ℚ → ℚ → ℚ → ℚ → ℚ) (e_lat e_lon x_lat x_lon : ℚ)
    (vrs : List ValidRoute) (r : RouteWithStops) (m : StopsMatch)
    (h : routeStopOnce dist e_lat e_lon x_lat x_lon vrs r = some m) :
    m.entry_order < m.exit_order := by
  unfold routeStopOnce at h
  split at h
  · exact absurd h (by simp)
  · split at h
    · dsimp only [] at h
      repeat split at h
      all_goals try simp at h
      subst h
      simp only []
      omega
    · exact absurd h (by simp)

/-- The route-stops phase only ever returns matches with strictly
increasing stop orders. -/
theorem routeStopsPhase_lt (dist : ℚ → ℚ → ℚ → ℚ → ℚ) (e_lat e_lon x_lat x_lon : ℚ)
    (vrs : List ValidRoute) (routes : List RouteWithStops) (m : StopsMatch)
    (h : routeStopsPhase dist e_lat e_lon x_lat x_lon vrs routes = some m) :
    m.entry_order < m.exit_order := by
  induction routes with
  | nil => simp [routeStopsPhase] at h
  | cons r rest ih =>
    rw [routeStopsPhase] at h
    split at h
    · rename_i m' heq
      injection h with h'
      subst h'
      exact routeStopOnce_lt _ _ _ _ _ _ _ _ heq
    · exact ih h

/-- Evaluation of the accepted sub-segment scenario (spec Scenario A
rebased on well-separated stops): entry at the order-1 stop, exit at the
order-2 stop of the same route, member segment matching both names. -/
theorem scenA_eval : routeStopsPhase planarDistKm (96615/10000) (800255/10000)
    (93833/10000) (804000/10000) [vrJK] [routeJK] = some scenAMatch := by
  have h1 : pyLower ("Jaffna") = "jaffna" := by decide
  have h2 : pyLower ("Kilinochchi") = "kilinochchi" := by decide
  have s1 : strHas ("jaffna") ("jaffna") = true := by decide
  have s2 : strHas ("kilinochchi") ("kilinochchi") = true := by decide
  norm_num [routeStopsPhase, routeStopOnce, findStops, findStopsAux, truthyQ,
    planarDistKm, PROXIMITY_THRESHOLD_KM, routeJK, jaffnaStop, kilinochchiStop, vrJK,
    scenAMatch, h1, h2, s1, s2, List.find?, abs_of_nonneg, abs_of_nonpos]

/-- C4: segment-based season-ticket validation accepts only stop pairs
with strictly increasing `stop_order`; and in the wrong-direction
scenario (entry near the order-8 stop, exit near the order-1 stop of the
Jaffna→Colombo route, member segment Jaffna→Colombo) the whole
`_check_location_proximity` check rejects the journey. -/
theorem claim_C4 :
    (∀ (dist : ℚ → ℚ → ℚ → ℚ → ℚ) (e_lat e_lon x_lat x_lon : ℚ)
       (vrs : List ValidRoute) (routes : List RouteWithStops) (m : StopsMatch),
      routeStopsPhase dist e_lat e_lon x_lat x_lon vrs routes = some m →
      m.entry_order < m.exit_order) ∧
    check_location_proximity planarDistKm (.ok [routeJC])
      (69271/10000) (798612/10000) (96615/10000) (800255/10000) [vrJC] = (false, none) := by
  constructor
  · intro dist e_lat e_lon x_lat x_lon vrs routes m h
    exact routeStopsPhase_lt dist e_lat e_lon x_lat x_lon vrs routes m h
  · have h1 : pyLower ("Jaffna") = "jaffna" := by decide
    have h2 : pyLower ("Colombo") = "colombo" := by decide
    have b1 : ("jaffna" == "colombo") = false := by decide
    have b2 : ("kodikamam" == "colombo") = false := by decide
    have b3 : ("chavakachcheri" == "colombo") = false := by decide
    have b4 : ("kilinochchi" == "colombo") = false := by decide
    have b5 : ("vavuniya" == "colombo") = false := by decide
    have b6 : ("anuradhapura" == "colombo") = false := by decide
    have b7 : ("kurunegala" == "colombo") = false := by decide
    norm_num [check_location_proximity, routeStopsPhase, routeStopOnce, findStops,
      findStopsAux, truthyQ, proximityFallback, lookupKnown, knownLocations,
      planarDistKm, PROXIMITY_THRESHOLD_KM, routeJC, jaffnaStop, colomboStop, vrJC,
      h1, h2, b1, b2, b3, b4, b5, b6, b7, List.find?, abs_of_nonneg, abs_of_nonpos]

/-- C4 (witness): the accepted scenario — entry at the order-1 stop,
exit at the order-2 stop — produces a match, and the theorem yields its
strictly increasing orders. -/
theorem claim_C4_witness :
    routeStopsPhase planarDistKm (96615/10000) (800255/10000) (93833/10000) (804000/10000)
      [vrJK] [routeJK] = some scenAMatch ∧
    scenAMatch.entry_order < scenAMatch.exit_order :=
  ⟨scenA_eval, claim_C4.1 planarDistKm (96615/10000) (800255/10000) (93833/10000)
    (804000/10000) [vrJK] [routeJK] scenAMatch scenA_eval⟩

/-- C6: fares are zero strictly below 0.1 km, and otherwise the distance
is mapped to stage `⌈d / 3.5⌉` before the fare-table lookup: 0.05 km is
free, 3.5 km is charged the stage-1 fare, 3.51 km the stage-2 fare. -/
theorem claim_C6 (tbl : List FareStage) (d : ℚ) :
    (d < 1/10 → calculate_fare (.ok tbl) (.num d) = 0) ∧
    (1/10 ≤ d → calculate_fare (.ok tbl) (.num d) = lookupFare tbl (stageOf d)) ∧
    calculate_fare (.ok tbl) (.num (1/20)) = 0 ∧
    stageOf (7/2) = 1 ∧ stageOf (351/100) = 2 ∧
    calculate_fare (.ok tbl) (.num (7/2)) = lookupFare tbl 1 ∧
    calculate_fare (.ok tbl) (.num (351/100)) = lookupFare tbl 2 := by
  have hs1 : stageOf (7/2) = 1 := by
    norm_num [stageOf, STAGE_DISTANCE]
  have hs2 : stageOf (351/100) = 2 := by
    rw [stageOf, STAGE_DISTANCE, Int.ceil_eq_iff]
    norm_num
  have hgen : ∀ x : ℚ, 1/10 ≤ x →
      calculate_fare (.ok tbl) (.num x) = lookupFare tbl (stageOf x) := by
    intro x hx
    have h0 : ¬ x ≤ 0 := by linarith
    have h1 : ¬ x < 1/10 := by linarith
    simp only [calculate_fare]
    rw [if_neg h0, if_neg h1]
  refine ⟨?_, hgen d, ?_, hs1, hs2, ?_, ?_⟩
  · intro h
    by_cases h0 : d ≤ 0
    · simp only [calculate_fare]
      rw [if_pos h0]
    · simp only [calculate_fare]
      rw [if_neg h0, if_pos h]
  · norm_num [calculate_fare]
  · rw [hgen (7/2) (by norm_num), hs1]
  · rw [hgen (351/100) (by norm_num), hs2]

/-- C6 (witness): the theorem applied to a concrete table and concrete
distances, discharging the hypotheses of both implications. -/
theorem claim_C6_witness :
    calculate_fare (.ok demoFareTable) (.num (1/20)) = 0 ∧
    calculate_fare (.ok demoFareTable) (.num (2/100)) = 0 ∧
    calculate_fare (.ok demoFareTable) (.num 5) = lookupFare demoFareTable (stageOf 5) :=
  ⟨(claim_C6 demoFareTable 0).2.2.1,
   (claim_C6 demoFareTable (2/100)).1 (by norm_num),
   (claim_C6 demoFareTable 5).2.1 (by norm_num)⟩

/-- Auxiliary induction for `minByStage`: folding from a seed returns a
minimal element. -/
theorem minByStage_go (t : List FareStage) : ∀ a : FareStage,
    ∃ f, t.foldl (fun acc g =>
        match acc with
        | none => some g
        | some g' => if g.stage_number < g'.stage_number then some g else some g') (some a) = some f ∧
      (f = a ∨ f ∈ t) ∧ f.stage_number ≤ a.stage_number ∧
      ∀ g ∈ t, f.stage_number ≤ g.stage_number := by
  induction t with
  | nil => intro a; exact ⟨a, rfl, Or.inl rfl, le_refl _, by simp⟩
  | cons b t' ih =>
    intro a
    simp only [List.foldl]
    by_cases hb : b.stage_number < a.stage_number
    · rw [if_pos hb]
      obtain ⟨f, hf, hmem, hle, hall⟩ := ih b
      refine ⟨f, hf, ?_, ?_, ?_⟩
      · rcases hmem with h | h
        · exact Or.inr (by simp [h])
        · exact Or.inr (by simp [h])
      · exact le_trans hle (le_of_lt hb)
      · intro g hg
        rcases List.mem_cons.mp hg with h | h
        · subst h; exact hle
        · exact hall g h
    · rw [if_neg hb]
      obtain ⟨f, hf, hmem, hle, hall⟩ := ih a
      refine ⟨f, hf, ?_, hle, ?_⟩
      · rcases hmem with h | h
        · exact Or.inl h
        · exact Or.inr (by simp [h])
      · intro g hg
        rcases List.mem_cons.mp hg with h | h
        · subst h; exact le_trans hle (not_lt.mp hb)
        · exact hall g h

/-- Specification of `minByStage`: none on the empty list, otherwise a
member with minimal `stage_number`. -/
theorem minByStage_spec (l : List FareStage) :
    (l = [] ∧ minByStage l = none) ∨
    (∃ f, minByStage l = some f ∧ f ∈ l ∧ ∀ g ∈ l, f.stage_number ≤ g.stage_number) := by
  cases l with
  | nil => exact Or.inl ⟨rfl, rfl⟩
  | cons a t =>
    right
    obtain ⟨f, hf, hmem, hle, hall⟩ := minByStage_go t a
    refine ⟨f, hf, ?_, ?_⟩
    · rcases hmem with h | h
      · simp [h]
      · simp [h]
    · intro g hg
      rcases List.mem_cons.mp hg with h | h
      · subst h; exact hle
      · exact hall g h

/-- Auxiliary induction for `maxByStage`. -/
theorem maxByStage_go (t : List FareStage) : ∀ a : FareStage,
    ∃ f, t.foldl (fun acc g =>
        match acc with
        | none => some g
        | some g' => if g'.stage_number < g.stage_number then some g else some g') (some a) = some f ∧
      (f = a ∨ f ∈ t) ∧ a.stage_number ≤ f.stage_number ∧
      ∀ g ∈ t, g.stage_number ≤ f.stage_number := by
  induction t with
  | nil => intro a; exact ⟨a, rfl, Or.inl rfl, le_refl _, by simp⟩
  | cons b t' ih =>
    intro a
    simp only [List.foldl]
    by_cases hb : a.stage_number < b.stage_number
    · rw [if_pos hb]
      obtain ⟨f, hf, hmem, hle, hall⟩ := ih b
      refine ⟨f, hf, ?_, le_trans (le_of_lt hb) hle, ?_⟩
      · rcases hmem with h | h
        · exact Or.inr (by simp [h])
        · exact Or.inr (by simp [h])
      · intro g hg
        rcases List.mem_cons.mp hg with h | h
        · subst h; exact hle
        · exact hall g h
    · rw [if_neg hb]
      obtain ⟨f, hf, hmem, hle, hall⟩ := ih a
      refine ⟨f, hf, ?_, hle, ?_⟩
      · rcases hmem with h | h
        · exact Or.inl h
        · exact Or.inr (by simp [h])
      · intro g hg
        rcases List.mem_cons.mp hg with h | h
        · subst h; exact le_trans (not_lt.mp hb) hle
        · exact hall g h

/-- Specification of `maxByStage`. -/
theorem maxByStage_spec (l : List FareStage) :
    (l = [] ∧ maxByStage l = none) ∨
    (∃ f, maxByStage l = some f ∧ f ∈ l ∧ ∀ g ∈ l, g.stage_number ≤ f.stage_number) := by
  cases l with
  | nil => exact Or.inl ⟨rfl, rfl⟩
  | cons a t =>
    right
    obtain ⟨f, hf, hmem, hle, hall⟩ := maxByStage_go t a
    refine ⟨f, hf, ?_, ?_⟩
    · rcases hmem with h | h
      · simp [h]
      · simp [h]
    · intro g hg
      rcases List.mem_cons.mp hg with h | h
      · subst h; exact hle
      · exact hall g h

/-- A successful `findGEStage` returns an active row at or above the
requested stage, minimal among such rows. -/
theorem findGEStage_some (tbl : List FareStage) (s : ℤ) (f : FareStage)
    (h : findGEStage tbl s = some f) :
    f ∈ tbl ∧ f.is_active = true ∧ s ≤ f.stage_number ∧
    ∀ g ∈ tbl, g.is_active = true → s ≤ g.stage_number → f.stage_number ≤ g.stage_number := by
  rcases minByStage_spec (tbl.filter (fun f => f.is_active && decide (s ≤ f.stage_number))) with
    ⟨hnil, hnone⟩ | ⟨f', hf', hmem, hall⟩
  · rw [findGEStage, hnone] at h
    exact absurd h (by simp)
  · rw [findGEStage, hf'] at h
    injection h with h'
    subst h'
    have hm := List.mem_filter.mp hmem
    refine ⟨hm.1, ?_, ?_, ?_⟩
    · have := hm.2
      simp at this
      exact this.1
    · have := hm.2
      simp at this
      exact this.2
    · intro g hg hga hgs
      exact hall g (List.mem_filter.mpr ⟨hg, by simp [hga, hgs]⟩)

/-- A failed `findGEStage` means every active row is below the requested
stage. -/
theorem findGEStage_none (tbl : List FareStage) (s : ℤ)
    (h : findGEStage tbl s = none) :
    ∀ g ∈ tbl, g.is_active = true → g.stage_number < s := by
  intro g hg hga
  by_contra hlt
  push_neg at hlt
  rcases minByStage_spec (tbl.filter (fun f => f.is_active && decide (s ≤ f.stage_number))) with
    ⟨hnil, hnone⟩ | ⟨f', hf', hmem, hall⟩
  · have : g ∈ tbl.filter (fun f => f.is_active && decide (s ≤ f.stage_number)) :=
      List.mem_filter.mpr ⟨hg, by simp [hga, hlt]⟩
    rw [hnil] at this
    simp at this
  · rw [findGEStage, hf'] at h
    exact absurd h (by simp)

/-- A successful `findHighestStage` returns an active row with maximal
stage number. -/
theorem findHighestStage_some (tbl : List FareStage) (f : FareStage)
    (h : findHighestStage tbl = some f) :
    f ∈ tbl ∧ f.is_active = true ∧
    ∀ g ∈ tbl, g.is_active = true → g.stage_number ≤ f.stage_number := by
  rcases maxByStage_spec (tbl.filter (fun f => f.is_active)) with
    ⟨hnil, hnone⟩ | ⟨f', hf', hmem, hall⟩
  · rw [findHighestStage, hnone] at h
    exact absurd h (by simp)
  · rw [findHighestStage, hf'] at h
    injection h with h'
    subst h'
    have hm := List.mem_filter.mp hmem
    refine ⟨hm.1, by simpa using hm.2, ?_⟩
    intro g hg hga
    exact hall g (List.mem_filter.mpr ⟨hg, by simp [hga]⟩)

/-- A failed `findHighestStage` means the table has no active row. -/
theorem findHighestStage_none (tbl : List FareStage)
    (h : findHighestStage tbl = none) :
    ∀ g ∈ tbl, g.is_active = true → False := by
  intro g hg hga
  rcases maxByStage_spec (tbl.filter (fun f => f.is_active)) with
    ⟨hnil, hnone⟩ | ⟨f', hf', hmem, hall⟩
  · have : g ∈ tbl.filter (fun f => f.is_active) := List.mem_filter.mpr ⟨hg, by simp [hga]⟩
    rw [hnil] at this
    simp at this
  · rw [findHighestStage, hf'] at h
    exact absurd h (by simp)

/-- A successful `findExactStage` returns an active row at exactly the
requested stage. -/
theorem findExactStage_some (tbl : List FareStage) (s : ℤ) (f : FareStage)
    (h : findExactStage tbl s = some f) :
    f ∈ tbl ∧ f.is_active = true ∧ f.stage_number = s := by
  have hmem := List.mem_of_find?_eq_some h
  have hp := List.find?_some h
  simp at hp
  exact ⟨hmem, hp.1, hp.2⟩

/-- Case analysis of the `calculate_fare` lookup cascade: either an
active row at or above the stage is selected (minimal among such), or no
active row reaches the stage and the highest row (or the hard-coded
fallback) is used. -/
theorem lookupFare_cases (tbl : List FareStage) (s : ℤ) :
    (∃ f, f ∈ tbl ∧ f.is_active = true ∧ s ≤ f.stage_number ∧
      (∀ g ∈ tbl, g.is_active = true → s ≤ g.stage_number → f.stage_number ≤ g.stage_number) ∧
      lookupFare tbl s = f.fare) ∨
    ((∀ g ∈ tbl, g.is_active = true → g.stage_number < s) ∧
      ((∃ h, findHighestStage tbl = some h ∧ lookupFare tbl s = h.fare) ∨
       ((∀ g ∈ tbl, g.is_active = true → False) ∧
        lookupFare tbl s = (if s == 1 then (30:ℚ) else 30 + ((s:ℚ) - 1) * 10)))) := by
  rw [lookupFare]
  cases hex : findExactStage tbl s with
  | some f =>
    obtain ⟨hmem, hact, hsn⟩ := findExactStage_some tbl s f hex
    exact Or.inl ⟨f, hmem, hact, le_of_eq hsn.symm, fun g _ _ hgs => hsn ▸ hgs, rfl⟩
  | none =>
    cases hge : findGEStage tbl s with
    | some f =>
      obtain ⟨hmem, hact, hsn, hmin⟩ := findGEStage_some tbl s f hge
      exact Or.inl ⟨f, hmem, hact, hsn, hmin, rfl⟩
    | none =>
      refine Or.inr ⟨findGEStage_none tbl s hge, ?_⟩
      cases hh : findHighestStage tbl with
      | some f => exact Or.inl ⟨f, rfl, rfl⟩
      | none => exact Or.inr ⟨findHighestStage_none tbl hh, rfl⟩

/-- The hard-coded fallback fare is monotone in the stage. -/
theorem fallbackFare_mono (s1 s2 : ℤ) (h1 : 1 ≤ s1) (hs : s1 ≤ s2) :
    (if s1 == 1 then (30:ℚ) else 30 + ((s1:ℚ) - 1) * 10) ≤
    (if s2 == 1 then (30:ℚ) else 30 + ((s2:ℚ) - 1) * 10) := by
  have c2 : (s1:ℚ) ≤ (s2:ℚ) := by exact_mod_cast hs
  have c3 : (1:ℚ) ≤ (s2:ℚ) := by exact_mod_cast le_trans h1 hs
  by_cases e1 : s1 = 1 <;> by_cases e2 : s2 = 1
  · simp [e1, e2]
  · simp [e1, e2]
    nlinarith
  · exfalso
    omega
  · simp [e1, e2]
    nlinarith

/-- The hard-coded fallback fare is non-negative. -/
theorem fallbackFare_nonneg (s : ℤ) (h1 : 1 ≤ s) :
    (0:ℚ) ≤ (if s == 1 then (30:ℚ) else 30 + ((s:ℚ) - 1) * 10) := by
  have c1 : (1:ℚ) ≤ (s:ℚ) := by exact_mod_cast h1
  by_cases e : s = 1 <;> simp [e] <;> nlinarith

/-- With non-negative fares in the table, every lookup is non-negative. -/
theorem lookupFare_nonneg (tbl : List FareStage)
    (hnn : ∀ f ∈ tbl, f.is_active = true → 0 ≤ f.fare) (s : ℤ) (h1 : 1 ≤ s) :
    0 ≤ lookupFare tbl s := by
  rcases lookupFare_cases tbl s with ⟨f, hmem, hact, _, _, heq⟩ | ⟨_, hc⟩
  · rw [heq]; exact hnn f hmem hact
  · rcases hc with ⟨h, hh, heq⟩ | ⟨_, heq⟩
    · rw [heq]
      obtain ⟨hmem, hact, _⟩ := findHighestStage_some tbl h hh
      exact hnn h hmem hact
    · rw [heq]
      exact fallbackFare_nonneg s h1

/-- With a non-negative, stage-monotone table, the lookup cascade is
monotone in the stage. -/
theorem lookupFare_mono (tbl : List FareStage)
    (hnn : ∀ f ∈ tbl, f.is_active = true → 0 ≤ f.fare)
    (hmono : ∀ f ∈ tbl, ∀ g ∈ tbl, f.is_active = true → g.is_active = true →
      f.stage_number ≤ g.stage_number → f.fare ≤ g.fare)
    (s1 s2 : ℤ) (h1 : 1 ≤ s1) (hs : s1 ≤ s2) :
    lookupFare tbl s1 ≤ lookupFare tbl s2 := by
  rcases lookupFare_cases tbl s1 with ⟨f1, hm1, ha1, hs1', hmin1, he1⟩ | ⟨hall1, hc1⟩
  · rcases lookupFare_cases tbl s2 with ⟨f2, hm2, ha2, hs2', hmin2, he2⟩ | ⟨hall2, hc2⟩
    · rw [he1, he2]
      have hle : f1.stage_number ≤ f2.stage_number :=
        hmin1 f2 hm2 ha2 (le_trans hs hs2')
      exact hmono f1 hm1 f2 hm2 ha1 ha2 hle
    · rcases hc2 with ⟨h, hh, he2⟩ | ⟨hnone, _⟩
      · rw [he1, he2]
        obtain ⟨hmh, hah, hmax⟩ := findHighestStage_some tbl h hh
        exact hmono f1 hm1 h hmh ha1 hah (hmax f1 hm1 ha1)
      · exact absurd ha1 (by simpa using hnone f1 hm1)
  · rcases lookupFare_cases tbl s2 with ⟨f2, hm2, ha2, hs2', _, _⟩ | ⟨hall2, hc2⟩
    · exact absurd hs2' (not_le.mpr (lt_of_lt_of_le (hall1 f2 hm2 ha2) hs))
    · rcases hc1 with ⟨h1', hh1, he1⟩ | ⟨hnone1, he1⟩
      · rcases hc2 with ⟨h2', hh2, he2⟩ | ⟨hnone2, _⟩
        · rw [he1, he2]
          rw [hh1] at hh2
          injection hh2 with hh'
          rw [hh']
        · obtain ⟨hmh, hah, _⟩ := findHighestStage_some tbl h1' hh1
          exact absurd hah (by simpa using hnone2 h1' hmh)
      · rcases hc2 with ⟨h2', hh2, _⟩ | ⟨hnone2, he2⟩
        · obtain ⟨hmh, hah, _⟩ := findHighestStage_some tbl h2' hh2
          exact absurd hah (by simpa using hnone1 h2' hmh)
        · rw [he1, he2]
          exact fallbackFare_mono s1 s2 h1 hs

/-- Distances of at least 0.1 km map to stage 1 or higher. -/
theorem stageOf_ge_one (d : ℚ) (h : 1/10 ≤ d) : 1 ≤ stageOf d := by
  rw [stageOf]
  have hpos : 0 < d / STAGE_DISTANCE := by
    apply div_pos (by linarith) (by norm_num [STAGE_DISTANCE])
  exact Int.ceil_pos.mpr hpos

/-- The stage number is monotone in the distance. -/
theorem stageOf_mono (d1 d2 : ℚ) (h : d1 ≤ d2) : stageOf d1 ≤ stageOf d2 := by
  rw [stageOf, stageOf]
  apply Int.ceil_le_ceil
  have hc : (0:ℚ) < STAGE_DISTANCE := by norm_num [STAGE_DISTANCE]
  exact (div_le_div_iff_of_pos_right hc).mpr h

/-- C7 (amended): `calculate_fare` is monotone in the distance provided
every active fare stage has a non-negative fare and fares are
non-decreasing in the stage number; in particular, with an empty table
the built-in fallback (stage 1 → 30, each further stage +10) is
monotone. -/
theorem claim_C7_amended (tbl : List FareStage)
    (hnn : ∀ f ∈ tbl, f.is_active = true → 0 ≤ f.fare)
    (hmono : ∀ f ∈ tbl, ∀ g ∈ tbl, f.is_active = true → g.is_active = true →
      f.stage_number ≤ g.stage_number → f.fare ≤ g.fare)
    (d1 d2 : ℚ) (hd : d1 ≤ d2) :
    calculate_fare (.ok tbl) (.num d1) ≤ calculate_fare (.ok tbl) (.num d2) := by
  by_cases h2a : d2 ≤ 0
  · have h1a : d1 ≤ 0 := le_trans hd h2a
    simp only [calculate_fare]
    rw [if_pos h1a, if_pos h2a]
  · by_cases h2b : d2 < 1/10
    · simp only [calculate_fare]
      rw [if_neg h2a, if_pos h2b]
      by_cases h1a : d1 ≤ 0
      · rw [if_pos h1a]
      · rw [if_neg h1a, if_pos (lt_of_le_of_lt hd h2b)]
    · push_neg at h2b
      simp only [calculate_fare]
      rw [if_neg h2a, if_neg (not_lt.mpr h2b)]
      by_cases h1a : d1 ≤ 0
      · rw [if_pos h1a]
        exact lookupFare_nonneg tbl hnn _ (stageOf_ge_one d2 h2b)
      · by_cases h1b : d1 < 1/10
        · rw [if_neg h1a, if_pos h1b]
          exact lookupFare_nonneg tbl hnn _ (stageOf_ge_one d2 h2b)
        · push_neg at h1b
          rw [if_neg h1a, if_neg (not_lt.mpr h1b)]
          exact lookupFare_mono tbl hnn hmono _ _ (stageOf_ge_one d1 h1b) (stageOf_mono d1 d2 hd)

/-- C7 (counterexample): with a fare table whose fares decrease with the
stage number (stage 1 → 100, stage 2 → 5) — a configuration nothing in
the code rules out — `calculate_fare` is NOT monotone: 1 km costs 100
while 4 km costs 5.  This falsifies the unconditional "computeFare is
monotone in distance". -/
theorem claim_C7_counterexample :
    (1:ℚ) ≤ 4 ∧
    ¬ (calculate_fare (.ok badFareTable) (.num 1) ≤ calculate_fare (.ok badFareTable) (.num 4)) := by
  have hs1 : stageOf 1 = 1 := by
    rw [stageOf, STAGE_DISTANCE, Int.ceil_eq_iff]
    norm_num
  have hs2 : stageOf 4 = 2 := by
    rw [stageOf, STAGE_DISTANCE, Int.ceil_eq_iff]
    norm_num
  constructor
  · norm_num
  · have b1 : ((1:ℤ) == 2) = false := by decide
    have b2 : ((2:ℤ) == 2) = true := by decide
    have b3 : ((1:ℤ) == 1) = true := by decide
    have b4 : ((2:ℤ) == 1) = false := by decide
    norm_num [calculate_fare, hs1, hs2, lookupFare, findExactStage, badFareTable,
      List.find?, b1, b2, b3, b4]

/-- C7 (witness): the amended theorem applied to the empty fare table —
the built-in fallback case named by the claim — at distances 1 and 4. -/
theorem claim_C7_witness :
    calculate_fare (.ok ([] : List FareStage)) (.num 1) ≤ calculate_fare (.ok []) (.num 4) := by
  exact claim_C7_amended [] (by simp) (by simp) 1 4 (by norm_num)

/-- Completing the session with the given id removes exactly it from the
ACTIVE sessions. -/
theorem filterActive_map_complete (l : List TripSession) (sid : ℕ) (now : ℤ) (pc uc : ℕ) :
    (l.map (fun ss => if ss.sid == sid then
        { ss with status := TripStatus.completed, end_time := some now,
                  total_passengers := pc, total_unmatched := uc }
      else ss)).filter (fun ss => ss.status == TripStatus.active)
    = (l.filter (fun ss => ss.status == TripStatus.active)).filter
        (fun ss => !(ss.sid == sid)) := by
  induction l with
  | nil => rfl
  | cons a t ih =>
    by_cases ha : a.sid = sid <;> by_cases hactive : a.status = TripStatus.active <;>
      simp_all [List.filter_cons]

/-- Completing a session preserves the session ids. -/
theorem map_sid_complete (l : List TripSession) (sid : ℕ) (now : ℤ) (pc uc : ℕ) :
    (l.map (fun ss => if ss.sid == sid then
        { ss with status := TripStatus.completed, end_time := some now,
                  total_passengers := pc, total_unmatched := uc }
      else ss)).map (fun ss => ss.sid)
    = l.map (fun ss => ss.sid) := by
  induction l with
  | nil => rfl
  | cons a t ih =>
    by_cases ha : a.sid = sid <;> simp_all

/-- Propositional unfolding of the boolean well-formedness predicate. -/
theorem ledgerWF_iff (s : LedgerState) : ledgerWF s = true ↔
    ((∀ ss ∈ s.trip_sessions, ss.sid < s.next_sid) ∧
     (s.trip_sessions.map (fun ss => ss.sid)).Nodup ∧
     ((s.current_trip = none ∧ activeSessions s = []) ∨
      (∃ ct, s.current_trip = some ct ∧ ct.status = TripStatus.active ∧
        (activeSessions s).map (fun ss => ss.sid) = [ct.sid]))) := by
  cases hct : s.current_trip with
  | none =>
    simp [ledgerWF, hct, List.all_eq_true, and_assoc]
  | some ct =>
    simp [ledgerWF, hct, List.all_eq_true, and_assoc]

/-- Effect of `end_current_trip` on a well-formed state with an active
trip: no ACTIVE session remains, session ids and `next_sid` are
preserved, the trip's open entries are converted and removed. -/
theorem end_current_trip_facts (s : LedgerState) (ct : CurrentTrip) (n : ℤ)
    (hct : s.current_trip = some ct)
    (hone : (activeSessions s).map (fun ss => ss.sid) = [ct.sid]) :
    activeSessions (end_current_trip n s).2 = [] ∧
    ((end_current_trip n s).2.trip_sessions.map (fun ss => ss.sid)) =
      s.trip_sessions.map (fun ss => ss.sid) ∧
    (end_current_trip n s).2.next_sid = s.next_sid ∧
    (end_current_trip n s).2.current_trip = none ∧
    (end_current_trip n s).2.unmatched_passengers =
      s.unmatched_passengers ++
        (s.temp_entries.filter (fun e => e.trip_id == ct.trip_id)).map
          (entryToUnmatchedTripEnd ct) ∧
    (end_current_trip n s).2.temp_entries =
      s.temp_entries.filter (fun e => !(e.trip_id == ct.trip_id)) := by
  have hobtain : ∃ a, activeSessions s = [a] ∧ a.sid = ct.sid := by
    cases hA : activeSessions s with
    | nil => rw [hA] at hone; simp at hone
    | cons a t =>
      rw [hA] at hone
      simp only [List.map_cons] at hone
      injection hone with h1 h2
      cases t with
      | nil => exact ⟨a, rfl, h1⟩
      | cons b t' => simp at h2
  obtain ⟨a, hA, hasid⟩ := hobtain
  simp only [end_current_trip, hct]
  refine ⟨?_, ?_, trivial, trivial, trivial, trivial⟩
  · show (s.trip_sessions.map _).filter _ = []
    rw [filterActive_map_complete]
    show (activeSessions s).filter _ = []
    rw [hA]
    simp [hasid]
  · exact map_sid_complete _ _ _ _ _

/-- Effect of one `start_new_trip` call on a well-formed state:
well-formedness is preserved, exactly one ACTIVE session remains, the
entry buffer is emptied, and every previously open entry reappears as an
ENTRY UnmatchedRecord. -/
theorem start_new_trip_facts (s : LedgerState) (rn : String) (t n : ℤ)
    (hwf : ledgerWF s = true) :
    ledgerWF (start_new_trip rn t n s) = true ∧
    countActive (start_new_trip rn t n s) = 1 ∧
    (start_new_trip rn t n s).temp_entries = [] ∧
    ∀ e ∈ s.temp_entries, ∃ u ∈ (start_new_trip rn t n s).unmatched_passengers,
      u.rec_type = "ENTRY" ∧ u.face_embedding = e.face_embedding ∧
      u.face_id = e.face_id ∧ u.timestamp = e.entry_timestamp := by
  obtain ⟨hlt, hnodup, hcur⟩ := (ledgerWF_iff s).mp hwf
  have hs1 : ∃ s1 : LedgerState,
      start_new_trip rn t n s =
        { s1 with
          unmatched_passengers :=
            s1.unmatched_passengers ++ s1.temp_entries.map entryToUnmatchedOrphan,
          temp_entries := [],
          trip_sessions := s1.trip_sessions ++
            [{ sid := s1.next_sid, trip_id := t, route_name := rn, start_time := t,
               end_time := none, status := .active, total_passengers := 0,
               total_unmatched := 0 }],
          current_trip := some ⟨t, t, .active, s1.next_sid⟩,
          next_sid := s1.next_sid + 1 } ∧
      activeSessions s1 = [] ∧
      s1.trip_sessions.map (fun ss => ss.sid) = s.trip_sessions.map (fun ss => ss.sid) ∧
      s1.next_sid = s.next_sid ∧
      (∀ e ∈ s.temp_entries,
        (∃ u ∈ s1.unmatched_passengers,
          u.rec_type = "ENTRY" ∧ u.face_embedding = e.face_embedding ∧
          u.face_id = e.face_id ∧ u.timestamp = e.entry_timestamp) ∨
        e ∈ s1.temp_entries) := by
    rcases hcur with ⟨hnone, hacts⟩ | ⟨ct, hct, hstat, hone⟩
    · refine ⟨s, ?_, hacts, rfl, rfl, fun e he => Or.inr he⟩
      simp only [start_new_trip, hnone]
    · obtain ⟨ha, hm, hn, hc, hu, ht⟩ := end_current_trip_facts s ct n hct hone
      refine ⟨(end_current_trip n s).2, ?_, ha, hm, hn, ?_⟩
      · have hb : (ct.status == TripStatus.active) = true := by simp [hstat]
        simp only [start_new_trip, hct, hb, if_true]
      · intro e he
        by_cases hid : (e.trip_id == ct.trip_id) = true
        · left
          refine ⟨entryToUnmatchedTripEnd ct e, ?_, rfl, rfl, rfl, rfl⟩
          rw [hu]
          apply List.mem_append_right
          exact List.mem_map_of_mem _ (List.mem_filter.mpr ⟨he, hid⟩)
        · right
          rw [ht]
          refine List.mem_filter.mpr ⟨he, ?_⟩
          simp only [Bool.not_eq_true] at hid
          simp [hid]
  obtain ⟨s1, hS, hact1, hmap1, hnext1, hmig⟩ := hs1
  have hsessS : (start_new_trip rn t n s).trip_sessions = s1.trip_sessions ++
      [{ sid := s1.next_sid, trip_id := t, route_name := rn, start_time := t,
         end_time := none, status := .active, total_passengers := 0,
         total_unmatched := 0 }] := by rw [hS]
  have hactS : activeSessions (start_new_trip rn t n s) =
      [{ sid := s1.next_sid, trip_id := t, route_name := rn, start_time := t,
         end_time := none, status := .active, total_passengers := 0,
         total_unmatched := 0 }] := by
    rw [activeSessions, hsessS, List.filter_append]
    have h1 : s1.trip_sessions.filter (fun ss => ss.status == TripStatus.active) = [] := hact1
    rw [h1]
    rfl
  refine ⟨?_, ?_, ?_, ?_⟩
  · rw [ledgerWF_iff]
    refine ⟨?_, ?_, Or.inr ⟨⟨t, t, .active, s1.next_sid⟩, by rw [hS], rfl, ?_⟩⟩
    · intro ss hss
      rw [hsessS] at hss
      rcases List.mem_append.mp hss with h | h
      · have : ss.sid ∈ s1.trip_sessions.map (fun ss => ss.sid) :=
          List.mem_map_of_mem _ h
        rw [hmap1] at this
        obtain ⟨ss', hss', heq⟩ := List.mem_map.mp this
        have := hlt ss' hss'
        have hns : (start_new_trip rn t n s).next_sid = s1.next_sid + 1 := by rw [hS]
        rw [hns, hnext1]
        omega
      · simp at h
        subst h
        have hns : (start_new_trip rn t n s).next_sid = s1.next_sid + 1 := by rw [hS]
        rw [hns]
        simp
    · rw [hsessS]
      rw [List.map_append, hmap1]
      simp only [List.map_cons, List.map_nil]
      rw [List.nodup_append]
      refine ⟨hnodup, List.nodup_singleton _, ?_⟩
      intro x hx
      simp only [List.mem_singleton]
      intro hcon
      obtain ⟨ss', hss', heq⟩ := List.mem_map.mp hx
      have := hlt ss' hss'
      rw [hcon, hnext1] at heq
      omega
    · rw [hactS]
      simp
  · rw [countActive, hactS]
    rfl
  · rw [hS]
  · intro e he
    rcases hmig e he with ⟨u, hu, hP⟩ | he1
    · refine ⟨u, ?_, hP⟩
      rw [hS]
      show u ∈ s1.unmatched_passengers ++ s1.temp_entries.map entryToUnmatchedOrphan
      exact List.mem_append_left _ hu
    · refine ⟨entryToUnmatchedOrphan e, ?_, rfl, rfl, rfl, rfl⟩
      rw [hS]
      show _ ∈ s1.unmatched_passengers ++ s1.temp_entries.map entryToUnmatchedOrphan
      exact List.mem_append_right _ (List.mem_map_of_mem _ he1)

/-- C8: starting a new trip first completes the active one, converts
every still-open entry into an UnmatchedRecord and empties the buffer;
two consecutive `start_new_trip` calls leave exactly one ACTIVE trip. -/
theorem claim_C8 (s : LedgerState) (rn1 rn2 : String) (t1 n1 t2 n2 : ℤ)
    (hwf : ledgerWF s = true) :
    ledgerWF (start_new_trip rn1 t1 n1 s) = true ∧
    countActive (start_new_trip rn1 t1 n1 s) = 1 ∧
    countActive (start_new_trip rn2 t2 n2 (start_new_trip rn1 t1 n1 s)) = 1 ∧
    (start_new_trip rn1 t1 n1 s).temp_entries = [] ∧
    ∀ e ∈ s.temp_entries, ∃ u ∈ (start_new_trip rn1 t1 n1 s).unmatched_passengers,
      u.rec_type = "ENTRY" ∧ u.face_embedding = e.face_embedding ∧
      u.face_id = e.face_id ∧ u.timestamp = e.entry_timestamp := by
  obtain ⟨hwf1, hcount1, htemp1, hmig1⟩ := start_new_trip_facts s rn1 t1 n1 hwf
  obtain ⟨hwf2, hcount2, htemp2, hmig2⟩ :=
    start_new_trip_facts (start_new_trip rn1 t1 n1 s) rn2 t2 n2 hwf1
  exact ⟨hwf1, hcount1, hcount2, htemp1, hmig1⟩

/-- C8 (witness): the theorem applied to a concrete well-formed state
with one active trip and one open entry, started twice. -/
theorem claim_C8_witness :
    countActive (start_new_trip ("R1") 1600000000 1600000000 cexState) = 1 ∧
    countActive (start_new_trip ("R2") 1600000100 1600000100
      (start_new_trip ("R1") 1600000000 1600000000 cexState)) = 1 ∧
    (start_new_trip ("R1") 1600000000 1600000000 cexState).temp_entries = [] := by
  have h := claim_C8 cexState ("R1") ("R2") 1600000000 1600000000 1600000100 1600000100
    (by decide)
  exact ⟨h.2.1, h.2.2.1, h.2.2.2.1⟩

/-- A matched entry returned by the similarity scan is one of the
scanned candidates. -/
theorem scanBest_some_mem (env : Env) (emb : Emb) (l : List TempEntry) (e : TempEntry)
    (h : (scanBest env emb l).1 = some e) : e ∈ l := by
  rw [scanBest] at h
  suffices H : ∀ acc : Option TempEntry × ℚ,
      (l.foldl (fun acc e =>
        if e.face_embedding.isEmpty then acc
        else
          let sv := env.sim emb e.face_embedding
          if sv > acc.2 ∧ sv > env.similarity_threshold then (some e, sv) else acc) acc).1 =
        some e →
      acc.1 = some e ∨ e ∈ l by
    rcases H (none, 0) h with h' | h'
    · exact absurd h' (by simp)
    · exact h'
  clear h
  induction l with
  | nil => intro acc h; exact Or.inl h
  | cons a t ih =>
    intro acc h
    simp only [List.foldl] at h
    rcases ih _ h with h' | h'
    · by_cases he : a.face_embedding.isEmpty
      · rw [if_pos he] at h'
        exact Or.inl h'
      · rw [if_neg he] at h'
        by_cases hc : env.sim emb a.face_embedding > acc.2 ∧
            env.sim emb a.face_embedding > env.similarity_threshold
        · rw [if_pos hc] at h'
          simp at h'
          exact Or.inr (by simp [h'])
        · rw [if_neg hc] at h'
          exact Or.inl h'
    · exact Or.inr (List.mem_cons_of_mem _ h')

/-- Every candidate gathered for matching is an open entry of the
buffer. -/
theorem candidatesFor_subset (env : Env) (ct : CurrentTrip) (s : LedgerState)
    (e : TempEntry) (h : e ∈ candidatesFor env ct s) : e ∈ s.temp_entries := by
  rw [candidatesFor] at h
  have hperm := List.perm_insertionSort
    (fun (a b : TempEntry) => b.entry_timestamp ≤ a.entry_timestamp)
    (s.temp_entries.filter (fun e =>
      e.trip_id == ct.trip_id &&
      decide (env.now - env.time_window_hours * 3600 ≤ e.entry_timestamp) &&
      !e.face_embedding.isEmpty))
  have := hperm.mem_iff.mp h
  exact (List.mem_filter.mp this).1

/-- Deleting by `_id` from a buffer with duplicate-free ids removes the
record for good. -/
theorem eraseP_eid_not_mem (l : List TempEntry) (e : TempEntry)
    (hn : (l.map (fun t => t.eid)).Nodup) :
    e ∉ l.eraseP (fun x => x.eid == e.eid) := by
  induction l with
  | nil => simp
  | cons a t ih =>
    simp only [List.map_cons, List.nodup_cons] at hn
    by_cases ha : (a.eid == e.eid) = true
    · rw [List.eraseP_cons, ha]
      simp only [cond_true]
      intro hmem
      have : e.eid ∈ t.map (fun t => t.eid) := List.mem_map_of_mem _ hmem
      have heq : a.eid = e.eid := by simpa using ha
      rw [← heq] at this
      exact hn.1 this
    · have ha' : (a.eid == e.eid) = false := by
        simpa using ha
      rw [List.eraseP_cons, ha']
      simp only [cond_false]
      intro hmem
      rcases List.mem_cons.mp hmem with h | h
      · subst h
        simp at ha
      · exact ih hn.2 h

/-- Characterisation of `find_matching_entry` when the similarity scan
produces a match: the final record is built and the state updated by
`buildFinal`. -/
theorem find_matching_entry_matched (env : Env) (exit_log : ExitLog) (s : LedgerState)
    (ct : CurrentTrip) (best : TempEntry) (bs : ℚ)
    (hemb : exit_log.face_embedding.isEmpty = false)
    (hct : s.current_trip = some ct)
    (hact : ct.status = TripStatus.active)
    (hscan : scanBest env exit_log.face_embedding (candidatesFor env ct s) = (some best, bs)) :
    find_matching_entry env exit_log s =
      ((some (buildFinal env ct exit_log s best bs).1, bs),
       (buildFinal env ct exit_log s best bs).2) := by
  have hne : (candidatesFor env ct s).isEmpty = false := by
    cases hE : candidatesFor env ct s with
    | nil =>
      rw [hE] at hscan
      exact absurd hscan (by simp [scanBest])
    | cons a t => rfl
  simp [find_matching_entry, hemb, hct, hact, hne, hscan]

/-- The state produced by `buildFinal` has the consumed entry deleted
by `_id`. -/
theorem buildFinal_state_temp (env : Env) (ct : CurrentTrip) (exit_log : ExitLog)
    (s : LedgerState) (best : TempEntry) (bs : ℚ) :
    (buildFinal env ct exit_log s best bs).2.temp_entries =
      s.temp_entries.eraseP (fun x => x.eid == best.eid) := rfl

/-- C9: a consumed EntryRecord can never be matched twice — after a
successful match of entry `e`, `e` is gone from the buffer and a
subsequent exit scan (any embedding, in particular the same one) cannot
return it again. -/
theorem claim_C9 (env : Env) (s : LedgerState) (exit_log : ExitLog)
    (ct : CurrentTrip) (e : TempEntry) (bs : ℚ)
    (hnodup : (s.temp_entries.map (fun t => t.eid)).Nodup)
    (hemb : exit_log.face_embedding.isEmpty = false)
    (hct : s.current_trip = some ct)
    (hact : ct.status = TripStatus.active)
    (hscan : scanBest env exit_log.face_embedding (candidatesFor env ct s) = (some e, bs)) :
    (find_matching_entry env exit_log s).1.1.isSome = true ∧
    e ∉ (find_matching_entry env exit_log s).2.temp_entries ∧
    ∀ log2 : ExitLog,
      (scanBest env log2.face_embedding
        (candidatesFor env ct (find_matching_entry env exit_log s).2)).1 ≠ some e := by
  rw [find_matching_entry_matched env exit_log s ct e bs hemb hct hact hscan]
  have hnot : e ∉ (buildFinal env ct exit_log s e bs).2.temp_entries := by
    rw [buildFinal_state_temp]
    exact eraseP_eid_not_mem _ _ hnodup
  refine ⟨rfl, hnot, ?_⟩
  intro log2 hcon
  exact hnot (candidatesFor_subset env ct _ e (scanBest_some_mem env _ _ e hcon))

/-- C5: a season-ticket member with an empty `valid_routes` list is
valid everywhere — every journey matched for such a member is finalized
with `is_season_ticket = true` and price 0. -/
theorem claim_C5 (env : Env) (s : LedgerState) (exit_log : ExitLog)
    (m : Member) (ssim : ℚ)
    (hmem : check_season_ticket_member env s.members exit_log.face_embedding = (some m, ssim))
    (hroutes : m.valid_routes = []) :
    ∀ fp, (find_matching_entry env exit_log s).1.1 = some fp →
      fp.is_season_ticket = true ∧ fp.price = 0 ∧
      fp ∈ (find_matching_entry env exit_log s).2.final_passengers := by
  intro fp hfp
  by_cases hemb : exit_log.face_embedding.isEmpty
  · simp [find_matching_entry, hemb] at hfp
  · cases hct : s.current_trip with
    | none => simp [find_matching_entry, hemb, hct] at hfp
    | some ct =>
      by_cases hact : ct.status = TripStatus.active
      · by_cases hne : (candidatesFor env ct s).isEmpty
        · simp [find_matching_entry, hemb, hct, hact, hne] at hfp
        · cases hbm : (scanBest env exit_log.face_embedding (candidatesFor env ct s)).1 with
          | none =>
            simp [find_matching_entry, hemb, hct, hact, hne, hbm] at hfp
          | some best =>
            have hscan : scanBest env exit_log.face_embedding (candidatesFor env ct s) =
                (some best, (scanBest env exit_log.face_embedding (candidatesFor env ct s)).2) := by
              rw [← hbm]
            rw [find_matching_entry_matched env exit_log s ct best _
              (by simpa using hemb) hct hact hscan] at hfp ⊢
            simp only [Option.some.injEq] at hfp
            subst hfp
            have hrv : is_route_valid_for_season_ticket env m best.entry_location
                ⟨exit_log.latitude, exit_log.longitude, none, none⟩ = (true, none) := by
              simp [is_route_valid_for_season_ticket, hroutes]
            refine ⟨?_, ?_, ?_⟩
            · simp [buildFinal, hmem, hrv]
            · simp [buildFinal, hmem, hrv]
            · show _ ∈ (buildFinal env ct exit_log s best _).2.final_passengers
              simp [buildFinal]
      · simp [find_matching_entry, hemb, hct, hact] at hfp

/-- Concrete evaluation: with the constant-1 similarity the scan matches
the single open entry. -/
theorem whscan : scanBest wEnv cexExit.face_embedding (candidatesFor wEnv cexCT wState) =
    (some cexEntry, 1) := by
  norm_num [scanBest, candidatesFor, wEnv, wState, cexCT, cexEntry, cexExit,
    List.insertionSort, List.orderedInsert]

/-- Concrete evaluation: the season-ticket check matches the enrolled
unrestricted member. -/
theorem whmem : check_season_ticket_member wEnv wState.members cexExit.face_embedding =
    (some wMember, 1) := by
  norm_num [check_season_ticket_member, wEnv, wState, wMember, cexExit]

/-- C5 (witness): the theorem applied to a concrete run in which the
unrestricted member matches; the resulting final passenger record is
exempt and free. -/
theorem claim_C5_witness :
    ((find_matching_entry wEnv cexExit wState).1.1.map
      (fun fp => (fp.is_season_ticket, fp.price))) = some (true, 0) ∧
    check_season_ticket_member wEnv wState.members cexExit.face_embedding =
      (some wMember, 1) ∧
    wMember.valid_routes = [] := by
  have hfind := find_matching_entry_matched wEnv cexExit wState cexCT cexEntry 1
    (by norm_num [cexExit]) rfl rfl whscan
  have h := claim_C5 wEnv wState cexExit wMember 1 whmem rfl
    (buildFinal wEnv cexCT cexExit wState cexEntry 1).1 (by rw [hfind])
  refine ⟨?_, whmem, rfl⟩
  rw [hfind]
  simp [h.1, h.2.1]

/-- C9 (witness): the theorem applied to a concrete run; the consumed
entry is gone and a second scan with the same embedding cannot return
it. -/
theorem claim_C9_witness :
    cexEntry ∉ (find_matching_entry wEnv cexExit wState).2.temp_entries ∧
    (scanBest wEnv cexExit.face_embedding
      (candidatesFor wEnv cexCT (find_matching_entry wEnv cexExit wState).2)).1 ≠
      some cexEntry := by
  have h := claim_C9 wEnv wState cexExit cexCT cexEntry 1 (by decide)
    (by norm_num [cexExit]) rfl rfl whscan
  exact ⟨h.2.1, h.2.2 cexExit⟩
